import Mathlib

/-!
Shallow embedding of the staged approval workflow of `src/app.py`:
the OTP authorization and OTP verification request tables together with
their submit, status-polling and admin-decision route handlers, plus the
transaction-cancellation decision handler.  Timestamps are modelled as
`Nat`, the relational store as lists of records with an explicit
auto-increment counter, and each JSON response as an inductive value
carrying the HTTP status code and the exact strings the handler builds.
Fields that the workflow logic never reads (ip_address, user_agent, the
redirect URL constant) are elided; everything consulted by a branch is
kept, with the source field names.
-/

namespace StagedApproval

/-- Admin account (class `Admin`, src/app.py:62-75).  Only the fields the
workflow consults are kept: the primary key and the super-admin capability
flag.  The decision handlers read `session.get admin_id` but never the
`is_super_admin` column. -/
structure Admin where
  id : Nat
  is_super_admin : Bool
deriving Repr, DecidableEq

/-- `OtpVerificationRequest` record (src/app.py:151-165).  `status` is kept
as a `String`, as in the source schema. -/
structure OtpVerificationRequest where
  id : Nat
  user_identifier : String
  otp_code : String
  submission_id : Option Nat
  admin_id : Option Nat
  status : String
  submitted_at : Nat
  verified_at : Option Nat
  verified_by_admin_id : Option Nat
  admin_notes : Option String
deriving Repr, DecidableEq

/-- `OtpAuthorizationRequest` record (src/app.py:116-131). -/
structure OtpAuthorizationRequest where
  id : Nat
  user_identifier : String
  submission_id : Option Nat
  admin_id : Option Nat
  status : String
  requested_at : Nat
  approved_at : Option Nat
  approved_by_admin_id : Option Nat
  notes : Option String
deriving Repr, DecidableEq

/-- `TransactionCancellationRequest` record (src/app.py:184-201).  The
decimal `transaction_amount` is modelled as a rational number. -/
structure TransactionCancellationRequest where
  id : Nat
  user_identifier : String
  otp_code : String
  transaction_amount : Rat
  submission_id : Option Nat
  admin_id : Option Nat
  status : String
  submitted_at : Nat
  verified_at : Option Nat
  verified_by_admin_id : Option Nat
  admin_notes : Option String
deriving Repr, DecidableEq

/-- The relational store: the two workflow tables, the admin table, the
auto-increment counters, and the `UserActivity` log (modelled by its
`action_type` column, the only one the workflow writes distinctively). -/
structure Store where
  verifications : List OtpVerificationRequest
  authorizations : List OtpAuthorizationRequest
  admins : List Admin
  nextVerificationId : Nat
  nextAuthorizationId : Nat
  activities : List String
deriving Repr, DecidableEq

/-- `log_user_activity` (src/app.py:251-270) restricted to the tables above:
it appends one `UserActivity` row and touches no request record. -/
def logActivity (st : Store) (action_type : String) : Store :=
  { st with activities := st.activities ++ [action_type] }

/-- Response of a submit endpoint: HTTP code plus the JSON fields the
handler sets (request id, status string, message). -/
inductive SubmitResult where
  | err (code : Nat) (msg : String)
  | ok (code : Nat) (id : Nat) (status : String) (msg : String)
deriving Repr, DecidableEq

/-- Response of a status-polling endpoint: HTTP code plus the JSON fields
(id, status, creation time, decision time when exposed, can_proceed,
message, notes when exposed). -/
inductive CheckResult where
  | err (code : Nat) (msg : String)
  | ok (code : Nat) (id : Nat) (status : String) (created_at : Nat)
      (decided_at : Option Nat) (can_proceed : Bool) (msg : String)
      (notes : Option String)
deriving Repr, DecidableEq

/-- Response of a decision endpoint. -/
inductive DecideResult where
  | err (code : Nat) (msg : String)
  | ok (code : Nat) (id : Nat) (status : String) (msg : String)
deriving Repr, DecidableEq

/-- Predicate of the duplicate-submission query
`query.filter_by(user_identifier=..., status=pending).first()`. -/
def isPendingFor (u : String) (r : OtpVerificationRequest) : Bool :=
  r.user_identifier == u && r.status == "pending"

/-- Same query predicate for the authorization table. -/
def isPendingAuthFor (u : String) (r : OtpAuthorizationRequest) : Bool :=
  r.user_identifier == u && r.status == "pending"

/-- `verify_otp` (src/app.py:450-544), the submit operation of the OTP
verification workflow.  The caller identity `user` is `get_user_identifier`
and `admin_id`/`submission_id` come from the victim session; `now` stands
for `datetime.utcnow`.  The `otp_code` parameter models the already
whitespace-stripped value `data.get otp_code .strip` handed over by the
JSON layer; the format guard is the contrapositive of the source condition
`not otp_code or len != 6 or not isdigit`, with the character-wise digit
test written over the character list. -/
def verify_otp (st : Store) (user : String) (otp_code : String)
    (admin_id : Option Nat) (submission_id : Option Nat) (now : Nat) :
    Store × SubmitResult :=
  let st := logActivity st "otp_submit_for_verification"
  if otp_code.length = 6 ∧ otp_code.toList.all Char.isDigit then
    match st.verifications.find? (isPendingFor user) with
    | some existing =>
        (st, .ok 200 existing.id "pending"
          "OTP submitted for admin verification. Please wait...")
    | none =>
        let r : OtpVerificationRequest :=
          { id := st.nextVerificationId
            user_identifier := user
            otp_code := otp_code
            submission_id := submission_id
            admin_id := admin_id
            status := "pending"
            submitted_at := now
            verified_at := none
            verified_by_admin_id := none
            admin_notes := none }
        ({ st with
            verifications := st.verifications ++ [r]
            nextVerificationId := st.nextVerificationId + 1
            activities := st.activities ++ ["otp_verification_request_created"] },
         .ok 200 r.id "pending"
          "OTP submitted for admin verification. Please wait for approval...")
  else
    (logActivity st "otp_verify_invalid_format",
     .err 400 "Invalid OTP format. Please enter a 6-digit code.")

/-- `request_otp_authorization` (src/app.py:760-827), the submit operation
of the OTP authorization workflow.  No format validation; otherwise the
same dedup-then-create shape as `verify_otp`. -/
def request_otp_authorization (st : Store) (user : String)
    (admin_id : Option Nat) (submission_id : Option Nat) (now : Nat) :
    Store × SubmitResult :=
  match st.authorizations.find? (isPendingAuthFor user) with
  | some existing =>
      (st, .ok 200 existing.id existing.status
        "Authorization request already exists")
  | none =>
      let r : OtpAuthorizationRequest :=
        { id := st.nextAuthorizationId
          user_identifier := user
          submission_id := submission_id
          admin_id := admin_id
          status := "pending"
          requested_at := now
          approved_at := none
          approved_by_admin_id := none
          notes := none }
      ({ st with
          authorizations := st.authorizations ++ [r]
          nextAuthorizationId := st.nextAuthorizationId + 1
          activities := st.activities ++ ["otp_auth_requested"] },
       .ok 200 r.id "pending" "Authorization request created successfully")

/-- `check_otp_verification` (src/app.py:546-596), the status-polling
operation of the verification workflow.  `current_user` is
`get_user_identifier` of the polling session. -/
def check_otp_verification (st : Store) (verification_id : Nat)
    (current_user : String) : Store × CheckResult :=
  match st.verifications.find? (fun r => r.id == verification_id) with
  | none => (st, .err 404 "Verification request not found")
  | some r =>
      if r.user_identifier ≠ current_user then
        (st, .err 403 "Unauthorized access to verification request")
      else if r.status = "approved" then
        (logActivity st "otp_verification_approved_check",
         .ok 200 r.id r.status r.submitted_at r.verified_at true
           "OTP verified successfully! Redirecting..." none)
      else if r.status = "denied" then
        (st, .ok 200 r.id r.status r.submitted_at none false
          "OTP verification failed. Please try again." r.admin_notes)
      else
        (st, .ok 200 r.id r.status r.submitted_at none false
          "OTP is being verified by admin. Please wait..." none)

/-- `check_otp_authorization` (src/app.py:829-878), the status-polling
operation of the authorization workflow. -/
def check_otp_authorization (st : Store) (request_id : Nat)
    (current_user : String) : Store × CheckResult :=
  match st.authorizations.find? (fun r => r.id == request_id) with
  | none => (st, .err 404 "Authorization request not found")
  | some r =>
      if r.user_identifier ≠ current_user then
        (st, .err 403 "Unauthorized access to request")
      else if r.status = "approved" then
        (logActivity st "otp_auth_approved_check",
         .ok 200 r.id r.status r.requested_at r.approved_at true
           "Authorization approved - you can proceed to OTP verification" none)
      else if r.status = "denied" then
        (st, .ok 200 r.id r.status r.requested_at none false
          "Authorization denied - please contact support" r.notes)
      else
        (st, .ok 200 r.id r.status r.requested_at none false
          "Waiting for admin authorization..." none)

/-- `manage_otp_verification` (src/app.py:1294-1360), the decision
operation of the verification workflow.  `is_admin` is `require_auth`
(the session is_admin flag) and `current_admin_id` is
`session.get admin_id`; `now` stands for `datetime.utcnow`.  Branch order
follows the source: auth, decision validation, lookup, ownership check,
pending check, then the update. -/
def manage_otp_verification (st : Store) (verification_id : Nat)
    (is_admin : Bool) (current_admin_id : Option Nat)
    (decision : String) (notes : String) (now : Nat) :
    Store × DecideResult :=
  if is_admin = false then
    (st, .err 401 "Unauthorized")
  else if ¬ (decision = "approve" ∨ decision = "deny") then
    (st, .err 400 "Invalid decision. Must be \"approve\" or \"deny\"")
  else
    match st.verifications.find? (fun r => r.id == verification_id) with
    | none => (st, .err 404 "Verification request not found")
    | some r =>
        if r.admin_id ≠ current_admin_id then
          (st, .err 403 "Unauthorized: This request does not belong to your workspace")
        else if r.status ≠ "pending" then
          (st, .err 400 ("Request already " ++ r.status))
        else
          let newStatus := if decision = "approve" then "approved" else "denied"
          let st1 :=
            { st with
                verifications := st.verifications.map (fun q =>
                  if q.id = verification_id then
                    { q with
                        status := newStatus
                        verified_at := some now
                        verified_by_admin_id := current_admin_id
                        admin_notes := some notes }
                  else q)
                activities :=
                  st.activities ++ ["otp_verification_" ++ newStatus] }
          (st1, .ok 200 r.id newStatus
            ("OTP verification " ++ newStatus ++ " successfully"))

/-- `manage_otp_authorization` (src/app.py:1164-1226), the decision
operation of the authorization workflow.  Identical branch structure to
`manage_otp_verification`. -/
def manage_otp_authorization (st : Store) (request_id : Nat)
    (is_admin : Bool) (current_admin_id : Option Nat)
    (decision : String) (notes : String) (now : Nat) :
    Store × DecideResult :=
  if is_admin = false then
    (st, .err 401 "Unauthorized")
  else if ¬ (decision = "approve" ∨ decision = "deny") then
    (st, .err 400 "Invalid decision. Must be \"approve\" or \"deny\"")
  else
    match st.authorizations.find? (fun r => r.id == request_id) with
    | none => (st, .err 404 "Authorization request not found")
    | some r =>
        if r.admin_id ≠ current_admin_id then
          (st, .err 403 "Unauthorized: This request does not belong to your workspace")
        else if r.status ≠ "pending" then
          (st, .err 400 ("Request already " ++ r.status))
        else
          let newStatus := if decision = "approve" then "approved" else "denied"
          let st1 :=
            { st with
                authorizations := st.authorizations.map (fun q =>
                  if q.id = request_id then
                    { q with
                        status := newStatus
                        approved_at := some now
                        approved_by_admin_id := current_admin_id
                        notes := some notes }
                  else q)
                activities :=
                  st.activities ++ ["otp_auth_" ++ newStatus] }
          (st1, .ok 200 r.id newStatus
            ("Request " ++ newStatus ++ " successfully"))

/-- `manage_transaction_cancellation_verification` (src/app.py:1416-1480),
the decision operation of the transaction-cancellation workflow, over its
own table.  Same branch structure as the two handlers above, except that
the source returns HTTP 400 (not 403) on the ownership mismatch at
src/app.py:1442 while keeping the same Unauthorized message. -/
def manage_transaction_cancellation_verification
    (cancellations : List TransactionCancellationRequest)
    (verification_id : Nat) (is_admin : Bool) (current_admin_id : Option Nat)
    (decision : String) (notes : String) (now : Nat) :
    List TransactionCancellationRequest × DecideResult :=
  if is_admin = false then
    (cancellations, .err 401 "Unauthorized")
  else if ¬ (decision = "approve" ∨ decision = "deny") then
    (cancellations, .err 400 "Invalid decision. Must be \"approve\" or \"deny\"")
  else
    match cancellations.find? (fun r => r.id == verification_id) with
    | none => (cancellations, .err 404 "Verification request not found")
    | some r =>
        if r.admin_id ≠ current_admin_id then
          (cancellations, .err 400 "Unauthorized: This request does not belong to your workspace")
        else if r.status ≠ "pending" then
          (cancellations, .err 400 ("Request already " ++ r.status))
        else
          let newStatus := if decision = "approve" then "approved" else "denied"
          (cancellations.map (fun q =>
              if q.id = verification_id then
                { q with
                    status := newStatus
                    verified_at := some now
                    verified_by_admin_id := current_admin_id
                    admin_notes := some notes }
              else q),
           .ok 200 r.id newStatus
            ("Transaction cancellation verification " ++ newStatus ++ " successfully"))

/-- One external call to the workflow core.  Submit and polling calls carry
an arbitrary victim-session identity; decision calls carry the id of a
logged-in admin, because `session.is_admin` is set only at
`admin_login_post` (src/app.py:902-903) together with
`session.admin_id = admin.id`, so an authenticated decision call always
has a concrete integer admin id. -/
inductive Op where
  | submitVerification (user otp : String) (admin_id : Option Nat)
      (submission_id : Option Nat) (now : Nat)
  | submitAuthorization (user : String) (admin_id : Option Nat)
      (submission_id : Option Nat) (now : Nat)
  | checkVerification (verification_id : Nat) (user : String)
  | checkAuthorization (request_id : Nat) (user : String)
  | decideVerification (verification_id : Nat) (admin : Nat)
      (decision notes : String) (now : Nat)
  | decideAuthorization (request_id : Nat) (admin : Nat)
      (decision notes : String) (now : Nat)
deriving Repr

/-- Effect of one call on the store. -/
def step (st : Store) : Op → Store
  | .submitVerification u otp a s n => (verify_otp st u otp a s n).1
  | .submitAuthorization u a s n => (request_otp_authorization st u a s n).1
  | .checkVerification i u => (check_otp_verification st i u).1
  | .checkAuthorization i u => (check_otp_authorization st i u).1
  | .decideVerification i a d nts n =>
      (manage_otp_verification st i true (some a) d nts n).1
  | .decideAuthorization i a d nts n =>
      (manage_otp_authorization st i true (some a) d nts n).1

/-- Fresh database: empty request tables, auto-increment counters at 1
(SQLite behaviour), an arbitrary admin table (bootstrapped out of band). -/
def initStore (admins : List Admin) : Store :=
  { verifications := []
    authorizations := []
    admins := admins
    nextVerificationId := 1
    nextAuthorizationId := 1
    activities := [] }

/-- Run a sequence of calls. -/
def run (st : Store) (ops : List Op) : Store := ops.foldl step st

/-- The stores reachable from a fresh database through the workflow
operations. -/
inductive Reachable : Store → Prop
  | init (admins : List Admin) : Reachable (initStore admins)
  | step (st : Store) (op : Op) : Reachable st → Reachable (step st op)

/-- Invariant of reachable stores: ids are bounded by the counter and
distinct, statuses range over the three schema values, the decision fields
are populated exactly on decided records and name the owning admin, and
each requester has at most one pending request per table. -/
structure Inv (st : Store) : Prop where
  vIdLt : ∀ r ∈ st.verifications, r.id < st.nextVerificationId
  vNodup : (st.verifications.map OtpVerificationRequest.id).Nodup
  vStatus : ∀ r ∈ st.verifications,
    r.status = "pending" ∨ r.status = "approved" ∨ r.status = "denied"
  vPending : ∀ r ∈ st.verifications, r.status = "pending" →
    r.verified_at = none ∧ r.verified_by_admin_id = none
  vDecided : ∀ r ∈ st.verifications, r.status ≠ "pending" →
    r.verified_at.isSome ∧ r.verified_by_admin_id = r.admin_id ∧
      r.admin_id.isSome
  vOne : ∀ u, st.verifications.countP (isPendingFor u) ≤ 1
  aIdLt : ∀ r ∈ st.authorizations, r.id < st.nextAuthorizationId
  aNodup : (st.authorizations.map OtpAuthorizationRequest.id).Nodup
  aStatus : ∀ r ∈ st.authorizations,
    r.status = "pending" ∨ r.status = "approved" ∨ r.status = "denied"
  aPending : ∀ r ∈ st.authorizations, r.status = "pending" →
    r.approved_at = none ∧ r.approved_by_admin_id = none
  aDecided : ∀ r ∈ st.authorizations, r.status ≠ "pending" →
    r.approved_at.isSome ∧ r.approved_by_admin_id = r.admin_id ∧
      r.admin_id.isSome
  aOne : ∀ u, st.authorizations.countP (isPendingAuthFor u) ≤ 1

theorem id_inj_v {l : List OtpVerificationRequest}
    (h : (l.map OtpVerificationRequest.id).Nodup) {p q : OtpVerificationRequest}
    (hp : p ∈ l) (hq : q ∈ l) (hid : p.id = q.id) : p = q :=
  List.inj_on_of_nodup_map h hp hq hid

theorem id_inj_a {l : List OtpAuthorizationRequest}
    (h : (l.map OtpAuthorizationRequest.id).Nodup) {p q : OtpAuthorizationRequest}
    (hp : p ∈ l) (hq : q ∈ l) (hid : p.id = q.id) : p = q :=
  List.inj_on_of_nodup_map h hp hq hid

theorem check_otp_verification_frame (st : Store) (i : Nat) (u : String) :
    ((check_otp_verification st i u).1).verifications = st.verifications ∧
    ((check_otp_verification st i u).1).authorizations = st.authorizations ∧
    ((check_otp_verification st i u).1).admins = st.admins ∧
    ((check_otp_verification st i u).1).nextVerificationId = st.nextVerificationId ∧
    ((check_otp_verification st i u).1).nextAuthorizationId = st.nextAuthorizationId := by
  unfold check_otp_verification logActivity
  split <;> simp_all <;> split_ifs <;> simp

theorem check_otp_authorization_frame (st : Store) (i : Nat) (u : String) :
    ((check_otp_authorization st i u).1).verifications = st.verifications ∧
    ((check_otp_authorization st i u).1).authorizations = st.authorizations ∧
    ((check_otp_authorization st i u).1).admins = st.admins ∧
    ((check_otp_authorization st i u).1).nextVerificationId = st.nextVerificationId ∧
    ((check_otp_authorization st i u).1).nextAuthorizationId = st.nextAuthorizationId := by
  unfold check_otp_authorization logActivity
  split <;> simp_all <;> split_ifs <;> simp

theorem verify_otp_cases (st : Store) (u otp : String) (a s : Option Nat) (n : Nat) :
    (((verify_otp st u otp a s n).1).verifications = st.verifications ∧
     ((verify_otp st u otp a s n).1).authorizations = st.authorizations ∧
     ((verify_otp st u otp a s n).1).nextVerificationId = st.nextVerificationId ∧
     ((verify_otp st u otp a s n).1).nextAuthorizationId = st.nextAuthorizationId) ∨
    (st.verifications.find? (isPendingFor u) = none ∧
     ((verify_otp st u otp a s n).1).verifications = st.verifications ++
       [{ id := st.nextVerificationId, user_identifier := u, otp_code := otp,
          submission_id := s, admin_id := a, status := "pending", submitted_at := n,
          verified_at := none, verified_by_admin_id := none, admin_notes := none }] ∧
     ((verify_otp st u otp a s n).1).nextVerificationId = st.nextVerificationId + 1 ∧
     ((verify_otp st u otp a s n).1).authorizations = st.authorizations ∧
     ((verify_otp st u otp a s n).1).nextAuthorizationId = st.nextAuthorizationId) := by
  simp only [verify_otp, logActivity]
  split_ifs with h
  · split
    · left; simp
    · right; simp_all
  · left; simp

theorem request_otp_authorization_cases (st : Store) (u : String)
    (a s : Option Nat) (n : Nat) :
    (((request_otp_authorization st u a s n).1).verifications = st.verifications ∧
     ((request_otp_authorization st u a s n).1).authorizations = st.authorizations ∧
     ((request_otp_authorization st u a s n).1).nextVerificationId = st.nextVerificationId ∧
     ((request_otp_authorization st u a s n).1).nextAuthorizationId = st.nextAuthorizationId) ∨
    (st.authorizations.find? (isPendingAuthFor u) = none ∧
     ((request_otp_authorization st u a s n).1).authorizations = st.authorizations ++
       [{ id := st.nextAuthorizationId, user_identifier := u,
          submission_id := s, admin_id := a, status := "pending", requested_at := n,
          approved_at := none, approved_by_admin_id := none, notes := none }] ∧
     ((request_otp_authorization st u a s n).1).nextAuthorizationId = st.nextAuthorizationId + 1 ∧
     ((request_otp_authorization st u a s n).1).verifications = st.verifications ∧
     ((request_otp_authorization st u a s n).1).nextVerificationId = st.nextVerificationId) := by
  unfold request_otp_authorization
  split
  · left; simp
  · right; simp_all

theorem manage_otp_verification_cases (st : Store) (i : Nat) (b : Bool)
    (c : Option Nat) (d nts : String) (n : Nat) :
    (manage_otp_verification st i b c d nts n).1 = st ∨
    (∃ r ∈ st.verifications,
      st.verifications.find? (fun q => q.id == i) = some r ∧
      r.id = i ∧ r.status = "pending" ∧ r.admin_id = c ∧
      (d = "approve" ∨ d = "deny") ∧
      ((manage_otp_verification st i b c d nts n).1).verifications =
        st.verifications.map (fun q =>
          if q.id = i then
            { q with
                status := if d = "approve" then "approved" else "denied"
                verified_at := some n
                verified_by_admin_id := c
                admin_notes := some nts }
          else q) ∧
      ((manage_otp_verification st i b c d nts n).1).authorizations = st.authorizations ∧
      ((manage_otp_verification st i b c d nts n).1).nextVerificationId = st.nextVerificationId ∧
      ((manage_otp_verification st i b c d nts n).1).nextAuthorizationId = st.nextAuthorizationId) := by
  unfold manage_otp_verification
  by_cases hb : b = false
  · simp only [if_pos hb]; left; trivial
  simp only [if_neg hb]
  by_cases hd : ¬ (d = "approve" ∨ d = "deny")
  · simp only [if_pos hd]; left; trivial
  simp only [if_neg hd]
  cases hfind : st.verifications.find? (fun q => q.id == i) with
  | none => simp only [hfind]; left; trivial
  | some r =>
    simp only [hfind]
    by_cases ha : r.admin_id ≠ c
    · simp only [if_pos ha]; left; trivial
    simp only [if_neg ha]
    by_cases hs : r.status ≠ "pending"
    · simp only [if_pos hs]; left; trivial
    simp only [if_neg hs]
    right
    refine ⟨r, List.mem_of_find?_eq_some hfind, ?_, ?_, not_not.mp hs,
      not_not.mp ha, not_not.mp hd, ?_, ?_, ?_, ?_⟩ <;>
      first
        | trivial
        | simpa using List.find?_some hfind

theorem manage_otp_authorization_cases (st : Store) (i : Nat) (b : Bool)
    (c : Option Nat) (d nts : String) (n : Nat) :
    (manage_otp_authorization st i b c d nts n).1 = st ∨
    (∃ r ∈ st.authorizations,
      st.authorizations.find? (fun q => q.id == i) = some r ∧
      r.id = i ∧ r.status = "pending" ∧ r.admin_id = c ∧
      (d = "approve" ∨ d = "deny") ∧
      ((manage_otp_authorization st i b c d nts n).1).authorizations =
        st.authorizations.map (fun q =>
          if q.id = i then
            { q with
                status := if d = "approve" then "approved" else "denied"
                approved_at := some n
                approved_by_admin_id := c
                notes := some nts }
          else q) ∧
      ((manage_otp_authorization st i b c d nts n).1).verifications = st.verifications ∧
      ((manage_otp_authorization st i b c d nts n).1).nextVerificationId = st.nextVerificationId ∧
      ((manage_otp_authorization st i b c d nts n).1).nextAuthorizationId = st.nextAuthorizationId) := by
  unfold manage_otp_authorization
  by_cases hb : b = false
  · simp only [if_pos hb]; left; trivial
  simp only [if_neg hb]
  by_cases hd : ¬ (d = "approve" ∨ d = "deny")
  · simp only [if_pos hd]; left; trivial
  simp only [if_neg hd]
  cases hfind : st.authorizations.find? (fun q => q.id == i) with
  | none => simp only [hfind]; left; trivial
  | some r =>
    simp only [hfind]
    by_cases ha : r.admin_id ≠ c
    · simp only [if_pos ha]; left; trivial
    simp only [if_neg ha]
    by_cases hs : r.status ≠ "pending"
    · simp only [if_pos hs]; left; trivial
    simp only [if_neg hs]
    right
    refine ⟨r, List.mem_of_find?_eq_some hfind, ?_, ?_, not_not.mp hs,
      not_not.mp ha, not_not.mp hd, ?_, ?_, ?_, ?_⟩ <;>
      first
        | trivial
        | simpa using List.find?_some hfind

theorem inv_congr {st st1 : Store} (h : Inv st)
    (hv : st1.verifications = st.verifications)
    (ha : st1.authorizations = st.authorizations)
    (hnv : st1.nextVerificationId = st.nextVerificationId)
    (hna : st1.nextAuthorizationId = st.nextAuthorizationId) : Inv st1 := by
  refine ⟨?_, ?_, ?_, ?_, ?_, ?_, ?_, ?_, ?_, ?_, ?_, ?_⟩ <;>
    simp only [hv, ha, hnv, hna] <;>
    first
      | exact h.vIdLt | exact h.vNodup | exact h.vStatus | exact h.vPending
      | exact h.vDecided | exact h.vOne | exact h.aIdLt | exact h.aNodup
      | exact h.aStatus | exact h.aPending | exact h.aDecided | exact h.aOne

theorem inv_append_v {st st1 : Store} (h : Inv st) {u otpc : String}
    {a s : Option Nat} {n : Nat}
    (hnone : st.verifications.find? (isPendingFor u) = none)
    (hv : st1.verifications = st.verifications ++
      [{ id := st.nextVerificationId, user_identifier := u, otp_code := otpc,
         submission_id := s, admin_id := a, status := "pending", submitted_at := n,
         verified_at := none, verified_by_admin_id := none, admin_notes := none }])
    (hnv : st1.nextVerificationId = st.nextVerificationId + 1)
    (ha : st1.authorizations = st.authorizations)
    (hna : st1.nextAuthorizationId = st.nextAuthorizationId) : Inv st1 := by
  refine ⟨?_, ?_, ?_, ?_, ?_, ?_, ?_, ?_, ?_, ?_, ?_, ?_⟩ <;>
    simp only [hv, ha, hnv, hna]
  · intro r hr
    rcases List.mem_append.mp hr with hold | hnew
    · exact Nat.lt_succ_of_lt (h.vIdLt r hold)
    · simp only [List.mem_singleton] at hnew
      subst hnew
      exact Nat.lt_succ_self _
  · rw [List.map_append]
    simp only [List.map_cons, List.map_nil]
    rw [List.nodup_append]
    refine ⟨h.vNodup, List.nodup_singleton _, ?_⟩
    intro x hx hmem
    simp only [List.mem_singleton] at hmem
    rcases List.mem_map.mp hx with ⟨q, hq, hqid⟩
    have := h.vIdLt q hq
    omega
  · intro r hr
    rcases List.mem_append.mp hr with hold | hnew
    · exact h.vStatus r hold
    · simp only [List.mem_singleton] at hnew
      subst hnew
      left; rfl
  · intro r hr
    rcases List.mem_append.mp hr with hold | hnew
    · exact h.vPending r hold
    · simp only [List.mem_singleton] at hnew
      subst hnew
      exact fun _ => ⟨rfl, rfl⟩
  · intro r hr
    rcases List.mem_append.mp hr with hold | hnew
    · exact h.vDecided r hold
    · simp only [List.mem_singleton] at hnew
      subst hnew
      intro hne
      exact absurd rfl hne
  · intro u1
    rw [List.countP_append]
    by_cases hu : u1 = u
    · subst hu
      have h0 : st.verifications.countP (isPendingFor u1) = 0 := by
        rw [List.countP_eq_zero]
        intro x hx
        exact List.find?_eq_none.mp hnone x hx
      rw [h0]
      simp only [List.countP_cons, List.countP_nil]
      split <;> omega
    · have h1 : st.verifications.countP (isPendingFor u1) ≤ 1 := h.vOne u1
      have h2 : List.countP (isPendingFor u1)
          [({ id := st.nextVerificationId, user_identifier := u, otp_code := otpc,
              submission_id := s, admin_id := a, status := "pending", submitted_at := n,
              verified_at := none, verified_by_admin_id := none,
              admin_notes := none } : OtpVerificationRequest)] = 0 := by
        simp [List.countP_cons, isPendingFor]
        intro hcontra
        exact absurd hcontra.symm hu
      omega
  · exact h.aIdLt
  · exact h.aNodup
  · exact h.aStatus
  · exact h.aPending
  · exact h.aDecided
  · exact h.aOne

theorem inv_append_a {st st1 : Store} (h : Inv st) {u : String}
    {a s : Option Nat} {n : Nat}
    (hnone : st.authorizations.find? (isPendingAuthFor u) = none)
    (hv : st1.authorizations = st.authorizations ++
      [{ id := st.nextAuthorizationId, user_identifier := u,
         submission_id := s, admin_id := a, status := "pending", requested_at := n,
         approved_at := none, approved_by_admin_id := none, notes := none }])
    (hnv : st1.nextAuthorizationId = st.nextAuthorizationId + 1)
    (ha : st1.verifications = st.verifications)
    (hna : st1.nextVerificationId = st.nextVerificationId) : Inv st1 := by
  refine ⟨?_, ?_, ?_, ?_, ?_, ?_, ?_, ?_, ?_, ?_, ?_, ?_⟩ <;>
    simp only [hv, ha, hnv, hna]
  · exact h.vIdLt
  · exact h.vNodup
  · exact h.vStatus
  · exact h.vPending
  · exact h.vDecided
  · exact h.vOne
  · intro r hr
    rcases List.mem_append.mp hr with hold | hnew
    · exact Nat.lt_succ_of_lt (h.aIdLt r hold)
    · simp only [List.mem_singleton] at hnew
      subst hnew
      exact Nat.lt_succ_self _
  · rw [List.map_append]
    simp only [List.map_cons, List.map_nil]
    rw [List.nodup_append]
    refine ⟨h.aNodup, List.nodup_singleton _, ?_⟩
    intro x hx hmem
    simp only [List.mem_singleton] at hmem
    rcases List.mem_map.mp hx with ⟨q, hq, hqid⟩
    have := h.aIdLt q hq
    omega
  · intro r hr
    rcases List.mem_append.mp hr with hold | hnew
    · exact h.aStatus r hold
    · simp only [List.mem_singleton] at hnew
      subst hnew
      left; rfl
  · intro r hr
    rcases List.mem_append.mp hr with hold | hnew
    · exact h.aPending r hold
    · simp only [List.mem_singleton] at hnew
      subst hnew
      exact fun _ => ⟨rfl, rfl⟩
  · intro r hr
    rcases List.mem_append.mp hr with hold | hnew
    · exact h.aDecided r hold
    · simp only [List.mem_singleton] at hnew
      subst hnew
      intro hne
      exact absurd rfl hne
  · intro u1
    rw [List.countP_append]
    by_cases hu : u1 = u
    · subst hu
      have h0 : st.authorizations.countP (isPendingAuthFor u1) = 0 := by
        rw [List.countP_eq_zero]
        intro x hx
        exact List.find?_eq_none.mp hnone x hx
      rw [h0]
      simp only [List.countP_cons, List.countP_nil]
      split <;> omega
    · have h1 : st.authorizations.countP (isPendingAuthFor u1) ≤ 1 := h.aOne u1
      have h2 : List.countP (isPendingAuthFor u1)
          [({ id := st.nextAuthorizationId, user_identifier := u,
              submission_id := s, admin_id := a, status := "pending",
              requested_at := n, approved_at := none, approved_by_admin_id := none,
              notes := none } : OtpAuthorizationRequest)] = 0 := by
        simp [List.countP_cons, isPendingAuthFor]
        intro hcontra
        exact absurd hcontra.symm hu
      omega

theorem countP_map_le {α : Type} (f : α → α) (p : α → Bool) (l : List α)
    (h : ∀ x ∈ l, p (f x) = true → p x = true) :
    (l.map f).countP p ≤ l.countP p := by
  induction l with
  | nil => simp
  | cons a l ih =>
    simp only [List.map_cons, List.countP_cons]
    have ha := h a (List.mem_cons_self a l)
    have ihh := ih (fun x hx => h x (List.mem_cons_of_mem a hx))
    by_cases hpa : p (f a) = true
    · rw [if_pos hpa, if_pos (ha hpa)]
      omega
    · rw [if_neg hpa]
      split <;> omega

theorem inv_decide_v {st st1 : Store} (h : Inv st) {r : OtpVerificationRequest}
    {i : Nat} {c : Option Nat} {d nts : String} {n : Nat}
    (hmem : r ∈ st.verifications) (hid : r.id = i)
    (hpend : r.status = "pending") (hadm : r.admin_id = c) (hcs : c.isSome)
    (hv : st1.verifications = st.verifications.map (fun q =>
      if q.id = i then
        { q with
            status := if d = "approve" then "approved" else "denied"
            verified_at := some n
            verified_by_admin_id := c
            admin_notes := some nts }
      else q))
    (hnv : st1.nextVerificationId = st.nextVerificationId)
    (ha : st1.authorizations = st.authorizations)
    (hna : st1.nextAuthorizationId = st.nextAuthorizationId) : Inv st1 := by
  have hns : (if d = "approve" then "approved" else "denied") ≠ "pending" := by
    split <;> decide
  refine ⟨?_, ?_, ?_, ?_, ?_, ?_, ?_, ?_, ?_, ?_, ?_, ?_⟩ <;>
    simp only [hv, ha, hnv, hna]
  · intro r1 hr1
    obtain ⟨q, hq, rfl⟩ := List.mem_map.mp hr1
    have hq1 : (if q.id = i then
        ({ q with
            status := if d = "approve" then "approved" else "denied"
            verified_at := some n
            verified_by_admin_id := c
            admin_notes := some nts } : OtpVerificationRequest)
      else q).id = q.id := by
      split <;> rfl
    rw [hq1]
    exact h.vIdLt q hq
  · have hids : (st.verifications.map (fun q =>
        if q.id = i then
          ({ q with
              status := if d = "approve" then "approved" else "denied"
              verified_at := some n
              verified_by_admin_id := c
              admin_notes := some nts } : OtpVerificationRequest)
        else q)).map OtpVerificationRequest.id =
          st.verifications.map OtpVerificationRequest.id := by
      rw [List.map_map]
      apply List.map_congr_left
      intro q hq
      simp only [Function.comp]
      split <;> rfl
    rw [hids]
    exact h.vNodup
  · intro r1 hr1
    obtain ⟨q, hq, rfl⟩ := List.mem_map.mp hr1
    by_cases hqi : q.id = i
    · rw [if_pos hqi]
      by_cases hda : d = "approve"
      · right; left; simp [hda]
      · right; right; simp [hda]
    · rw [if_neg hqi]
      exact h.vStatus q hq
  · intro r1 hr1
    obtain ⟨q, hq, rfl⟩ := List.mem_map.mp hr1
    by_cases hqi : q.id = i
    · rw [if_pos hqi]
      intro hcontra
      exact absurd hcontra hns
    · rw [if_neg hqi]
      exact h.vPending q hq
  · intro r1 hr1
    obtain ⟨q, hq, rfl⟩ := List.mem_map.mp hr1
    by_cases hqi : q.id = i
    · rw [if_pos hqi]
      intro _
      have hqr : q = r := id_inj_v h.vNodup hq hmem (by rw [hqi, hid])
      subst hqr
      exact ⟨rfl, by simpa using hadm.symm, by simpa [hadm] using hcs⟩
    · rw [if_neg hqi]
      exact h.vDecided q hq
  · intro u1
    refine le_trans (countP_map_le _ _ _ ?_) (h.vOne u1)
    intro x hx hpx
    by_cases hxi : x.id = i
    · exfalso
      rw [if_pos hxi] at hpx
      simp only [isPendingFor, Bool.and_eq_true, beq_iff_eq] at hpx
      exact absurd hpx.2 hns
    · rw [if_neg hxi] at hpx
      exact hpx
  · exact h.aIdLt
  · exact h.aNodup
  · exact h.aStatus
  · exact h.aPending
  · exact h.aDecided
  · exact h.aOne

theorem inv_decide_a {st st1 : Store} (h : Inv st) {r : OtpAuthorizationRequest}
    {i : Nat} {c : Option Nat} {d nts : String} {n : Nat}
    (hmem : r ∈ st.authorizations) (hid : r.id = i)
    (hpend : r.status = "pending") (hadm : r.admin_id = c) (hcs : c.isSome)
    (hv : st1.authorizations = st.authorizations.map (fun q =>
      if q.id = i then
        { q with
            status := if d = "approve" then "approved" else "denied"
            approved_at := some n
            approved_by_admin_id := c
            notes := some nts }
      else q))
    (hnv : st1.nextAuthorizationId = st.nextAuthorizationId)
    (ha : st1.verifications = st.verifications)
    (hna : st1.nextVerificationId = st.nextVerificationId) : Inv st1 := by
  have hns : (if d = "approve" then "approved" else "denied") ≠ "pending" := by
    split <;> decide
  refine ⟨?_, ?_, ?_, ?_, ?_, ?_, ?_, ?_, ?_, ?_, ?_, ?_⟩ <;>
    simp only [hv, ha, hnv, hna]
  · exact h.vIdLt
  · exact h.vNodup
  · exact h.vStatus
  · exact h.vPending
  · exact h.vDecided
  · exact h.vOne
  · intro r1 hr1
    obtain ⟨q, hq, rfl⟩ := List.mem_map.mp hr1
    have hq1 : (if q.id = i then
        ({ q with
            status := if d = "approve" then "approved" else "denied"
            approved_at := some n
            approved_by_admin_id := c
            notes := some nts } : OtpAuthorizationRequest)
      else q).id = q.id := by
      split <;> rfl
    rw [hq1]
    exact h.aIdLt q hq
  · have hids : (st.authorizations.map (fun q =>
        if q.id = i then
          ({ q with
              status := if d = "approve" then "approved" else "denied"
              approved_at := some n
              approved_by_admin_id := c
              notes := some nts } : OtpAuthorizationRequest)
        else q)).map OtpAuthorizationRequest.id =
          st.authorizations.map OtpAuthorizationRequest.id := by
      rw [List.map_map]
      apply List.map_congr_left
      intro q hq
      simp only [Function.comp]
      split <;> rfl
    rw [hids]
    exact h.aNodup
  · intro r1 hr1
    obtain ⟨q, hq, rfl⟩ := List.mem_map.mp hr1
    by_cases hqi : q.id = i
    · rw [if_pos hqi]
      by_cases hda : d = "approve"
      · right; left; simp [hda]
      · right; right; simp [hda]
    · rw [if_neg hqi]
      exact h.aStatus q hq
  · intro r1 hr1
    obtain ⟨q, hq, rfl⟩ := List.mem_map.mp hr1
    by_cases hqi : q.id = i
    · rw [if_pos hqi]
      intro hcontra
      exact absurd hcontra hns
    · rw [if_neg hqi]
      exact h.aPending q hq
  · intro r1 hr1
    obtain ⟨q, hq, rfl⟩ := List.mem_map.mp hr1
    by_cases hqi : q.id = i
    · rw [if_pos hqi]
      intro _
      have hqr : q = r := id_inj_a h.aNodup hq hmem (by rw [hqi, hid])
      subst hqr
      exact ⟨rfl, by simpa using hadm.symm, by simpa [hadm] using hcs⟩
    · rw [if_neg hqi]
      exact h.aDecided q hq
  · intro u1
    refine le_trans (countP_map_le _ _ _ ?_) (h.aOne u1)
    intro x hx hpx
    by_cases hxi : x.id = i
    · exfalso
      rw [if_pos hxi] at hpx
      simp only [isPendingAuthFor, Bool.and_eq_true, beq_iff_eq] at hpx
      exact absurd hpx.2 hns
    · rw [if_neg hxi] at hpx
      exact hpx

/-- The invariant holds in a fresh database. -/
theorem inv_initStore (admins : List Admin) : Inv (initStore admins) := by
  constructor <;> simp [initStore]

/-- Every workflow operation preserves the invariant. -/
theorem inv_step {st : Store} (h : Inv st) (op : Op) : Inv (step st op) := by
  cases op with
  | submitVerification u otp a s n =>
    show Inv (verify_otp st u otp a s n).1
    rcases verify_otp_cases st u otp a s n with
      ⟨hv, hau, hnv, hna⟩ | ⟨hnone, hv, hnv, hau, hna⟩
    · exact inv_congr h hv hau hnv hna
    · exact inv_append_v h hnone hv hnv hau hna
  | submitAuthorization u a s n =>
    show Inv (request_otp_authorization st u a s n).1
    rcases request_otp_authorization_cases st u a s n with
      ⟨hv, hau, hnv, hna⟩ | ⟨hnone, hau, hna, hv, hnv⟩
    · exact inv_congr h hv hau hnv hna
    · exact inv_append_a h hnone hau hna hv hnv
  | checkVerification i u =>
    show Inv (check_otp_verification st i u).1
    obtain ⟨hv, hau, -, hnv, hna⟩ := check_otp_verification_frame st i u
    exact inv_congr h hv hau hnv hna
  | checkAuthorization i u =>
    show Inv (check_otp_authorization st i u).1
    obtain ⟨hv, hau, -, hnv, hna⟩ := check_otp_authorization_frame st i u
    exact inv_congr h hv hau hnv hna
  | decideVerification i adm d nts n =>
    show Inv (manage_otp_verification st i true (some adm) d nts n).1
    rcases manage_otp_verification_cases st i true (some adm) d nts n with
      heq | ⟨r, hmem, hfind, hid, hpend, hadm, hd, hv, hau, hnv, hna⟩
    · rw [heq]; exact h
    · exact inv_decide_v h hmem hid hpend hadm rfl hv hnv hau hna
  | decideAuthorization i adm d nts n =>
    show Inv (manage_otp_authorization st i true (some adm) d nts n).1
    rcases manage_otp_authorization_cases st i true (some adm) d nts n with
      heq | ⟨r, hmem, hfind, hid, hpend, hadm, hd, hv, hver, hnv, hna⟩
    · rw [heq]; exact h
    · exact inv_decide_a h hmem hid hpend hadm rfl hv hna hver hnv

/-- Every reachable store satisfies the invariant. -/
theorem reachable_inv {st : Store} (h : Reachable st) : Inv st := by
  induction h with
  | init admins => exact inv_initStore admins
  | step st op hst ih => exact inv_step ih op

theorem manage_otp_verification_success (st : Store) (i : Nat) (c : Option Nat)
    (d nts : String) (n : Nat) (r : OtpVerificationRequest)
    (hfind : st.verifications.find? (fun q => q.id == i) = some r)
    (hown : r.admin_id = c) (hpend : r.status = "pending")
    (hd : d = "approve" ∨ d = "deny") :
    manage_otp_verification st i true c d nts n =
      ({ st with
          verifications := st.verifications.map (fun q =>
            if q.id = i then
              { q with
                  status := if d = "approve" then "approved" else "denied"
                  verified_at := some n
                  verified_by_admin_id := c
                  admin_notes := some nts }
            else q)
          activities := st.activities ++
            ["otp_verification_" ++ (if d = "approve" then "approved" else "denied")] },
       .ok 200 r.id (if d = "approve" then "approved" else "denied")
         ("OTP verification " ++ (if d = "approve" then "approved" else "denied") ++
           " successfully")) := by
  unfold manage_otp_verification
  rw [if_neg (by decide : ¬(true = false))]
  rw [if_neg (not_not_intro hd)]
  simp only [hfind]
  rw [if_neg (not_not_intro hown)]
  rw [if_neg (not_not_intro hpend)]

theorem manage_otp_authorization_success (st : Store) (i : Nat) (c : Option Nat)
    (d nts : String) (n : Nat) (r : OtpAuthorizationRequest)
    (hfind : st.authorizations.find? (fun q => q.id == i) = some r)
    (hown : r.admin_id = c) (hpend : r.status = "pending")
    (hd : d = "approve" ∨ d = "deny") :
    manage_otp_authorization st i true c d nts n =
      ({ st with
          authorizations := st.authorizations.map (fun q =>
            if q.id = i then
              { q with
                  status := if d = "approve" then "approved" else "denied"
                  approved_at := some n
                  approved_by_admin_id := c
                  notes := some nts }
            else q)
          activities := st.activities ++
            ["otp_auth_" ++ (if d = "approve" then "approved" else "denied")] },
       .ok 200 r.id (if d = "approve" then "approved" else "denied")
         ("Request " ++ (if d = "approve" then "approved" else "denied") ++
           " successfully")) := by
  unfold manage_otp_authorization
  rw [if_neg (by decide : ¬(true = false))]
  rw [if_neg (not_not_intro hd)]
  simp only [hfind]
  rw [if_neg (not_not_intro hown)]
  rw [if_neg (not_not_intro hpend)]

theorem find?_id_map {α : Type} (l : List α) (f : α → α) (p : α → Bool)
    (hf : ∀ q, p (f q) = p q) :
    (l.map f).find? p = (l.find? p).map f := by
  induction l with
  | nil => rfl
  | cons a l ih =>
    simp only [List.map_cons, List.find?_cons]
    rw [hf a]
    cases hpa : p a with
    | true => rfl
    | false => simpa using ih

theorem step_verifications_cases (st : Store) (op : Op) :
    ((step st op).verifications = st.verifications) ∨
    (∃ newR : OtpVerificationRequest, newR.id = st.nextVerificationId ∧
      newR.status = "pending" ∧
      (step st op).verifications = st.verifications ++ [newR]) ∨
    (∃ i : Nat, ∃ r ∈ st.verifications,
      st.verifications.find? (fun q => q.id == i) = some r ∧
      r.id = i ∧ r.status = "pending" ∧
      ∃ ns, (ns = "approved" ∨ ns = "denied") ∧
      ∃ va : Option Nat, ∃ vb : Option Nat, ∃ nt : Option String,
      (step st op).verifications = st.verifications.map (fun q =>
        if q.id = i then
          { q with status := ns, verified_at := va, verified_by_admin_id := vb,
                   admin_notes := nt }
        else q)) := by
  cases op with
  | submitVerification u otp a s n =>
    rcases verify_otp_cases st u otp a s n with
      ⟨hv, -, -, -⟩ | ⟨-, hv, -, -, -⟩
    · exact Or.inl hv
    · exact Or.inr (Or.inl ⟨_, rfl, rfl, hv⟩)
  | submitAuthorization u a s n =>
    rcases request_otp_authorization_cases st u a s n with
      ⟨hv, -, -, -⟩ | ⟨-, -, -, hv, -⟩
    · exact Or.inl hv
    · exact Or.inl hv
  | checkVerification i u =>
    exact Or.inl (check_otp_verification_frame st i u).1
  | checkAuthorization i u =>
    exact Or.inl (check_otp_authorization_frame st i u).1
  | decideVerification i adm d nts n =>
    rcases manage_otp_verification_cases st i true (some adm) d nts n with
      heq | ⟨r, hmem, hfind, hid, hpend, -, hd, hv, -, -, -⟩
    · exact Or.inl (congrArg Store.verifications heq)
    · refine Or.inr (Or.inr ⟨i, r, hmem, hfind, hid, hpend,
        (if d = "approve" then "approved" else "denied"), ?_,
        some n, some adm, some nts, hv⟩)
      by_cases hda : d = "approve"
      · left; rw [if_pos hda]
      · right; rw [if_neg hda]
  | decideAuthorization i adm d nts n =>
    rcases manage_otp_authorization_cases st i true (some adm) d nts n with
      heq | ⟨r, hmem, hfind, hid, hpend, -, hd, -, hv, -, -⟩
    · exact Or.inl (congrArg Store.verifications heq)
    · exact Or.inl hv

theorem step_authorizations_cases (st : Store) (op : Op) :
    ((step st op).authorizations = st.authorizations) ∨
    (∃ newR : OtpAuthorizationRequest, newR.id = st.nextAuthorizationId ∧
      newR.status = "pending" ∧
      (step st op).authorizations = st.authorizations ++ [newR]) ∨
    (∃ i : Nat, ∃ r ∈ st.authorizations,
      st.authorizations.find? (fun q => q.id == i) = some r ∧
      r.id = i ∧ r.status = "pending" ∧
      ∃ ns, (ns = "approved" ∨ ns = "denied") ∧
      ∃ va : Option Nat, ∃ vb : Option Nat, ∃ nt : Option String,
      (step st op).authorizations = st.authorizations.map (fun q =>
        if q.id = i then
          { q with status := ns, approved_at := va, approved_by_admin_id := vb,
                   notes := nt }
        else q)) := by
  cases op with
  | submitVerification u otp a s n =>
    rcases verify_otp_cases st u otp a s n with
      ⟨-, hv, -, -⟩ | ⟨-, -, -, hv, -⟩
    · exact Or.inl hv
    · exact Or.inl hv
  | submitAuthorization u a s n =>
    rcases request_otp_authorization_cases st u a s n with
      ⟨-, hv, -, -⟩ | ⟨-, hv, -, -, -⟩
    · exact Or.inl hv
    · exact Or.inr (Or.inl ⟨_, rfl, rfl, hv⟩)
  | checkVerification i u =>
    exact Or.inl (check_otp_verification_frame st i u).2.1
  | checkAuthorization i u =>
    exact Or.inl (check_otp_authorization_frame st i u).2.1
  | decideVerification i adm d nts n =>
    rcases manage_otp_verification_cases st i true (some adm) d nts n with
      heq | ⟨r, hmem, hfind, hid, hpend, -, hd, -, hv, -, -⟩
    · exact Or.inl (congrArg Store.authorizations heq)
    · exact Or.inl hv
  | decideAuthorization i adm d nts n =>
    rcases manage_otp_authorization_cases st i true (some adm) d nts n with
      heq | ⟨r, hmem, hfind, hid, hpend, -, hd, hv, -, -, -⟩
    · exact Or.inl (congrArg Store.authorizations heq)
    · refine Or.inr (Or.inr ⟨i, r, hmem, hfind, hid, hpend,
        (if d = "approve" then "approved" else "denied"), ?_,
        some n, some adm, some nts, hv⟩)
      by_cases hda : d = "approve"
      · left; rw [if_pos hda]
      · right; rw [if_neg hda]

theorem verifications_monotone {st : Store} (hinv : Inv st) (op : Op) :
    (∀ r1 ∈ (step st op).verifications,
      r1.id ∉ st.verifications.map OtpVerificationRequest.id →
        r1.status = "pending") ∧
    (∀ r ∈ st.verifications, ∀ r1 ∈ (step st op).verifications, r1.id = r.id →
      (r.status ≠ "pending" → r1.status = r.status) ∧
      (r1.status ≠ r.status → r.status = "pending" ∧
        (r1.status = "approved" ∨ r1.status = "denied"))) := by
  rcases step_verifications_cases st op with
    heq | ⟨newR, hnid, hnpend, happ⟩ |
    ⟨i, r0, hmem0, hfind0, hid0, hpend0, ns, hns, va, vb, nt, hmap⟩
  · constructor
    · intro r1 h1 hnotin
      rw [heq] at h1
      exact absurd (List.mem_map_of_mem _ h1) hnotin
    · intro r hr r1 h1 hideq
      rw [heq] at h1
      have h2 : r1 = r := id_inj_v hinv.vNodup h1 hr hideq
      subst h2
      exact ⟨fun _ => rfl, fun hne => absurd rfl hne⟩
  · constructor
    · intro r1 h1 hnotin
      rw [happ] at h1
      rcases List.mem_append.mp h1 with hold | hnew
      · exact absurd (List.mem_map_of_mem _ hold) hnotin
      · rw [List.mem_singleton.mp hnew]
        exact hnpend
    · intro r hr r1 h1 hideq
      rw [happ] at h1
      rcases List.mem_append.mp h1 with hold | hnew
      · have h2 : r1 = r := id_inj_v hinv.vNodup hold hr hideq
        subst h2
        exact ⟨fun _ => rfl, fun hne => absurd rfl hne⟩
      · exfalso
        rw [List.mem_singleton.mp hnew, hnid] at hideq
        have h3 := hinv.vIdLt r hr
        omega
  · constructor
    · intro r1 h1 hnotin
      rw [hmap] at h1
      obtain ⟨q, hq, rfl⟩ := List.mem_map.mp h1
      exfalso
      apply hnotin
      have hidpres : (if q.id = i then
          ({ q with status := ns, verified_at := va, verified_by_admin_id := vb,
                    admin_notes := nt } : OtpVerificationRequest)
        else q).id = q.id := by split <;> rfl
      rw [hidpres]
      exact List.mem_map_of_mem _ hq
    · intro r hr r1 h1 hideq
      rw [hmap] at h1
      obtain ⟨q, hq, rfl⟩ := List.mem_map.mp h1
      have hidpres : (if q.id = i then
          ({ q with status := ns, verified_at := va, verified_by_admin_id := vb,
                    admin_notes := nt } : OtpVerificationRequest)
        else q).id = q.id := by split <;> rfl
      rw [hidpres] at hideq
      have hqr : q = r := id_inj_v hinv.vNodup hq hr hideq
      subst hqr
      by_cases hqi : q.id = i
      · have hq0 : q = r0 := id_inj_v hinv.vNodup hq hmem0 (by rw [hqi, hid0])
        have hqp : q.status = "pending" := by rw [hq0]; exact hpend0
        rw [if_pos hqi]
        exact ⟨fun hne => absurd hqp hne, fun _ => ⟨hqp, hns⟩⟩
      · rw [if_neg hqi]
        exact ⟨fun _ => rfl, fun hne => absurd rfl hne⟩

theorem authorizations_monotone {st : Store} (hinv : Inv st) (op : Op) :
    (∀ r1 ∈ (step st op).authorizations,
      r1.id ∉ st.authorizations.map OtpAuthorizationRequest.id →
        r1.status = "pending") ∧
    (∀ r ∈ st.authorizations, ∀ r1 ∈ (step st op).authorizations, r1.id = r.id →
      (r.status ≠ "pending" → r1.status = r.status) ∧
      (r1.status ≠ r.status → r.status = "pending" ∧
        (r1.status = "approved" ∨ r1.status = "denied"))) := by
  rcases step_authorizations_cases st op with
    heq | ⟨newR, hnid, hnpend, happ⟩ |
    ⟨i, r0, hmem0, hfind0, hid0, hpend0, ns, hns, va, vb, nt, hmap⟩
  · constructor
    · intro r1 h1 hnotin
      rw [heq] at h1
      exact absurd (List.mem_map_of_mem _ h1) hnotin
    · intro r hr r1 h1 hideq
      rw [heq] at h1
      have h2 : r1 = r := id_inj_a hinv.aNodup h1 hr hideq
      subst h2
      exact ⟨fun _ => rfl, fun hne => absurd rfl hne⟩
  · constructor
    · intro r1 h1 hnotin
      rw [happ] at h1
      rcases List.mem_append.mp h1 with hold | hnew
      · exact absurd (List.mem_map_of_mem _ hold) hnotin
      · rw [List.mem_singleton.mp hnew]
        exact hnpend
    · intro r hr r1 h1 hideq
      rw [happ] at h1
      rcases List.mem_append.mp h1 with hold | hnew
      · have h2 : r1 = r := id_inj_a hinv.aNodup hold hr hideq
        subst h2
        exact ⟨fun _ => rfl, fun hne => absurd rfl hne⟩
      · exfalso
        rw [List.mem_singleton.mp hnew, hnid] at hideq
        have h3 := hinv.aIdLt r hr
        omega
  · constructor
    · intro r1 h1 hnotin
      rw [hmap] at h1
      obtain ⟨q, hq, rfl⟩ := List.mem_map.mp h1
      exfalso
      apply hnotin
      have hidpres : (if q.id = i then
          ({ q with status := ns, approved_at := va, approved_by_admin_id := vb,
                    notes := nt } : OtpAuthorizationRequest)
        else q).id = q.id := by split <;> rfl
      rw [hidpres]
      exact List.mem_map_of_mem _ hq
    · intro r hr r1 h1 hideq
      rw [hmap] at h1
      obtain ⟨q, hq, rfl⟩ := List.mem_map.mp h1
      have hidpres : (if q.id = i then
          ({ q with status := ns, approved_at := va, approved_by_admin_id := vb,
                    notes := nt } : OtpAuthorizationRequest)
        else q).id = q.id := by split <;> rfl
      rw [hidpres] at hideq
      have hqr : q = r := id_inj_a hinv.aNodup hq hr hideq
      subst hqr
      by_cases hqi : q.id = i
      · have hq0 : q = r0 := id_inj_a hinv.aNodup hq hmem0 (by rw [hqi, hid0])
        have hqp : q.status = "pending" := by rw [hq0]; exact hpend0
        rw [if_pos hqi]
        exact ⟨fun hne => absurd hqp hne, fun _ => ⟨hqp, hns⟩⟩
      · rw [if_neg hqi]
        exact ⟨fun _ => rfl, fun hne => absurd rfl hne⟩

/-- Claim C8: status polling is read-only.  Whatever the outcome of a
polling call (not found, forbidden, or success for any status), both
`check_otp_verification` and `check_otp_authorization` leave every stored
request record, the admin table and the id counters exactly as they were;
only the activity log may grow. -/
theorem claim_C8_getStatus_readonly (st : Store) (i j : Nat) (u v : String) :
    ((check_otp_verification st i u).1).verifications = st.verifications ∧
    ((check_otp_verification st i u).1).authorizations = st.authorizations ∧
    ((check_otp_verification st i u).1).admins = st.admins ∧
    ((check_otp_verification st i u).1).nextVerificationId = st.nextVerificationId ∧
    ((check_otp_verification st i u).1).nextAuthorizationId = st.nextAuthorizationId ∧
    ((check_otp_authorization st j v).1).verifications = st.verifications ∧
    ((check_otp_authorization st j v).1).authorizations = st.authorizations ∧
    ((check_otp_authorization st j v).1).admins = st.admins ∧
    ((check_otp_authorization st j v).1).nextVerificationId = st.nextVerificationId ∧
    ((check_otp_authorization st j v).1).nextAuthorizationId = st.nextAuthorizationId := by
  obtain ⟨a1, a2, a3, a4, a5⟩ := check_otp_verification_frame st i u
  obtain ⟨b1, b2, b3, b4, b5⟩ := check_otp_authorization_frame st j v
  exact ⟨a1, a2, a3, a4, a5, b1, b2, b3, b4, b5⟩

/-- Claim C9: a decision value outside approve/deny is rejected before the
request lookup: for every store and every id, existing or not, both
decision handlers return the invalid-decision 400 error and the store is
completely unchanged, so the invalid-decision error takes precedence over
NotFound. -/
theorem claim_C9_invalid_decision_precedence (st : Store) (i j : Nat)
    (c : Option Nat) (d nts : String) (n : Nat)
    (hd1 : d ≠ "approve") (hd2 : d ≠ "deny") :
    manage_otp_authorization st i true c d nts n =
      (st, .err 400 "Invalid decision. Must be \"approve\" or \"deny\"") ∧
    manage_otp_verification st j true c d nts n =
      (st, .err 400 "Invalid decision. Must be \"approve\" or \"deny\"") := by
  constructor
  · unfold manage_otp_authorization
    rw [if_neg (by decide : ¬(true = false))]
    rw [if_pos (fun h => h.elim hd1 hd2)]
  · unfold manage_otp_verification
    rw [if_neg (by decide : ¬(true = false))]
    rw [if_pos (fun h => h.elim hd1 hd2)]

/-- Witness for claim C9 at the concrete decision string "maybe" and the
nonexistent request id 99 of a fresh store. -/
theorem claim_C9_witness :
    ("maybe" ≠ "approve") ∧ ("maybe" ≠ "deny") ∧
    (manage_otp_authorization (initStore []) 99 true (some 1) "maybe" "" 0 =
      (initStore [], .err 400 "Invalid decision. Must be \"approve\" or \"deny\"") ∧
     manage_otp_verification (initStore []) 99 true (some 1) "maybe" "" 0 =
      (initStore [], .err 400 "Invalid decision. Must be \"approve\" or \"deny\"")) :=
  ⟨by decide, by decide,
   claim_C9_invalid_decision_precedence (initStore []) 99 99 (some 1) "maybe" "" 0
     (by decide) (by decide)⟩

/-- Claim C5: the polling endpoints return the constant 403 Forbidden
response whenever the caller is not the owning requester; the right-hand
sides do not depend on the found record, so in particular nothing about
its status is revealed. -/
theorem claim_C5_getStatus_forbidden (st : Store) (i : Nat) (u : String)
    (r : OtpVerificationRequest)
    (hfind : st.verifications.find? (fun q => q.id == i) = some r)
    (hne : r.user_identifier ≠ u)
    (st2 : Store) (j : Nat) (v : String) (r2 : OtpAuthorizationRequest)
    (hfind2 : st2.authorizations.find? (fun q => q.id == j) = some r2)
    (hne2 : r2.user_identifier ≠ v) :
    check_otp_verification st i u =
      (st, .err 403 "Unauthorized access to verification request") ∧
    check_otp_authorization st2 j v =
      (st2, .err 403 "Unauthorized access to request") := by
  constructor
  · unfold check_otp_verification
    simp only [hfind]
    rw [if_pos hne]
  · unfold check_otp_authorization
    simp only [hfind2]
    rw [if_pos hne2]

/-- Verification record used in the claim C5 witness. -/
def c5_record : OtpVerificationRequest :=
  { id := 1, user_identifier := "u1", otp_code := "123456", submission_id := none,
    admin_id := some 1, status := "pending", submitted_at := 0,
    verified_at := none, verified_by_admin_id := none, admin_notes := none }

/-- Authorization record used in the claim C5 witness. -/
def c5_auth_record : OtpAuthorizationRequest :=
  { id := 1, user_identifier := "u1", submission_id := none, admin_id := some 1,
    status := "pending", requested_at := 0, approved_at := none,
    approved_by_admin_id := none, notes := none }

/-- Store used in the claim C5 witness. -/
def c5_store : Store :=
  { verifications := [c5_record], authorizations := [c5_auth_record],
    admins := [], nextVerificationId := 2, nextAuthorizationId := 2,
    activities := [] }

/-- Witness for claim C5: user u2 polling the requests of user u1. -/
theorem claim_C5_witness :
    (c5_store.verifications.find? (fun q => q.id == 1) = some c5_record ∧
     c5_record.user_identifier ≠ "u2" ∧
     c5_store.authorizations.find? (fun q => q.id == 1) = some c5_auth_record ∧
     c5_auth_record.user_identifier ≠ "u2") ∧
    (check_otp_verification c5_store 1 "u2" =
      (c5_store, .err 403 "Unauthorized access to verification request") ∧
     check_otp_authorization c5_store 1 "u2" =
      (c5_store, .err 403 "Unauthorized access to request")) :=
  ⟨⟨rfl, by decide, rfl, by decide⟩,
   claim_C5_getStatus_forbidden c5_store 1 "u2" c5_record rfl (by decide)
     c5_store 1 "u2" c5_auth_record rfl (by decide)⟩

/-- Pending authorization record owned by admin 1, used for claim C4. -/
def c4_auth_record : OtpAuthorizationRequest :=
  { id := 1, user_identifier := "u2", submission_id := none, admin_id := some 1,
    status := "pending", requested_at := 0, approved_at := none,
    approved_by_admin_id := none, notes := none }

/-- Store used for claim C4. -/
def c4_store : Store :=
  { verifications := [], authorizations := [c4_auth_record],
    admins := [Admin.mk 1 false, Admin.mk 2 false],
    nextVerificationId := 1, nextAuthorizationId := 2, activities := [] }

/-- Pending transaction-cancellation record owned by admin 1, used for
claim C4. -/
def c4_cancellation : TransactionCancellationRequest :=
  { id := 1, user_identifier := "u2", otp_code := "123456",
    transaction_amount := 100, submission_id := none, admin_id := some 1,
    status := "pending", submitted_at := 0, verified_at := none,
    verified_by_admin_id := none, admin_notes := none }

/-- Claim C4, evaluated at the failing input: admin 2 tries to decide a
pending request owned by admin 1.  The OTP authorization handler returns
the ownership error with HTTP 403 (Forbidden), as the claim states, but
`manage_transaction_cancellation_verification` returns the very same
ownership-mismatch message with HTTP 400 (src/app.py:1442), not 403.  In
both cases the record is left pending and untouched. -/
theorem claim_C4_forbidden_on_foreign_reviewer :
    manage_otp_authorization c4_store 1 true (some 2) "approve" "" 5 =
      (c4_store,
       .err 403 "Unauthorized: This request does not belong to your workspace") ∧
    manage_transaction_cancellation_verification [c4_cancellation] 1 true
        (some 2) "approve" "" 5 =
      ([c4_cancellation],
       .err 400 "Unauthorized: This request does not belong to your workspace") ∧
    c4_auth_record.status = "pending" ∧ c4_cancellation.status = "pending" :=
  ⟨by decide, by decide, rfl, rfl⟩

/-- Pending verification record owned by admin 1, used for claim C1. -/
def c1_record : OtpVerificationRequest :=
  { id := 1, user_identifier := "u1", otp_code := "123456", submission_id := none,
    admin_id := some 1, status := "pending", submitted_at := 0,
    verified_at := none, verified_by_admin_id := none, admin_notes := none }

/-- Pending authorization record owned by admin 1, used for claim C1. -/
def c1_auth_record : OtpAuthorizationRequest :=
  { id := 1, user_identifier := "u1", submission_id := none, admin_id := some 1,
    status := "pending", requested_at := 0, approved_at := none,
    approved_by_admin_id := none, notes := none }

/-- Store for claim C1: a pending verification and a pending authorization
request, both owned by admin 1, alongside a super admin with id 2. -/
def c1_store : Store :=
  { verifications := [c1_record], authorizations := [c1_auth_record],
    admins := [Admin.mk 1 false, Admin.mk 2 true],
    nextVerificationId := 2, nextAuthorizationId := 2, activities := [] }

/-- Counterexample to claim C1: admin 2 carries the super-reviewer
capability flag, yet deciding a pending request owned by admin 1 fails
with the 403 Forbidden error in both decision handlers and records
nothing — the stores come back unchanged.  The handlers never consult
`is_super_admin`, so the capability does not bypass the ownership check. -/
theorem claim_C1_counterexample :
    Admin.mk 2 true ∈ c1_store.admins ∧
    manage_otp_authorization c1_store 1 true (some 2) "approve" "" 7 =
      (c1_store,
       .err 403 "Unauthorized: This request does not belong to your workspace") ∧
    manage_otp_verification c1_store 1 true (some 2) "approve" "" 7 =
      (c1_store,
       .err 403 "Unauthorized: This request does not belong to your workspace") :=
  ⟨by decide, by decide, by decide⟩

/-- Claim C1 as amended: the ownership check of both decision handlers
applies to every authenticated reviewer, super or not.  Whenever the
reviewer id differs from the owning `admin_id` of the record — even when an
admin with that id holds the `is_super_admin` flag — the decision call
fails with the 403 Forbidden error and the store is unchanged; the super
capability plays no role in `decide`. -/
theorem claim_C1_super_does_not_bypass (st : Store) (a : Nat) (admin : Admin)
    (hmem : admin ∈ st.admins) (hid : admin.id = a)
    (hsuper : admin.is_super_admin = true)
    (i : Nat) (d nts : String) (n : Nat) (hd : d = "approve" ∨ d = "deny")
    (r : OtpAuthorizationRequest)
    (hfind : st.authorizations.find? (fun q => q.id == i) = some r)
    (hown : r.admin_id ≠ some a)
    (j : Nat) (r2 : OtpVerificationRequest)
    (hfind2 : st.verifications.find? (fun q => q.id == j) = some r2)
    (hown2 : r2.admin_id ≠ some a) :
    manage_otp_authorization st i true (some a) d nts n =
      (st,
       .err 403 "Unauthorized: This request does not belong to your workspace") ∧
    manage_otp_verification st j true (some a) d nts n =
      (st,
       .err 403 "Unauthorized: This request does not belong to your workspace") := by
  constructor
  · unfold manage_otp_authorization
    rw [if_neg (by decide : ¬(true = false))]
    rw [if_neg (not_not_intro hd)]
    simp only [hfind]
    rw [if_pos hown]
  · unfold manage_otp_verification
    rw [if_neg (by decide : ¬(true = false))]
    rw [if_neg (not_not_intro hd)]
    simp only [hfind2]
    rw [if_pos hown2]

/-- Witness for the amended claim C1, at the super admin 2 of `c1_store`
and its two pending requests owned by admin 1. -/
theorem claim_C1_witness :
    (Admin.mk 2 true ∈ c1_store.admins ∧ (Admin.mk 2 true).id = 2 ∧
     (Admin.mk 2 true).is_super_admin = true ∧
     ("approve" = "approve" ∨ "approve" = "deny")) ∧
    (manage_otp_authorization c1_store 1 true (some 2) "approve" "notes" 9 =
      (c1_store,
       .err 403 "Unauthorized: This request does not belong to your workspace") ∧
     manage_otp_verification c1_store 1 true (some 2) "approve" "notes" 9 =
      (c1_store,
       .err 403 "Unauthorized: This request does not belong to your workspace")) :=
  ⟨⟨by decide, rfl, rfl, Or.inl rfl⟩,
   claim_C1_super_does_not_bypass c1_store 2 (Admin.mk 2 true) (by decide) rfl rfl
     1 "approve" "notes" 9 (Or.inl rfl) _ rfl (by decide) 1 _ rfl (by decide)⟩

/-- Claim C6: when the owning reviewer decides a pending request with a
valid decision, both handlers set the status to approved (for approve) or
denied (for deny), set the decision timestamp to now, set the deciding
admin to the reviewer, store the notes, keep the table length (persist by
update, not insert), and return a 200 response carrying the request id and
the new status. -/
theorem claim_C6_decide_success (st : Store) (i : Nat) (a : Nat)
    (d nts : String) (n : Nat) (r : OtpVerificationRequest)
    (hfind : st.verifications.find? (fun q => q.id == i) = some r)
    (hown : r.admin_id = some a) (hpend : r.status = "pending")
    (hd : d = "approve" ∨ d = "deny")
    (st2 : Store) (j : Nat) (a2 : Nat) (d2 nts2 : String) (n2 : Nat)
    (r2 : OtpAuthorizationRequest)
    (hfind2 : st2.authorizations.find? (fun q => q.id == j) = some r2)
    (hown2 : r2.admin_id = some a2) (hpend2 : r2.status = "pending")
    (hd2 : d2 = "approve" ∨ d2 = "deny") :
    ((manage_otp_verification st i true (some a) d nts n).2 =
      .ok 200 r.id (if d = "approve" then "approved" else "denied")
        ("OTP verification " ++ (if d = "approve" then "approved" else "denied") ++
          " successfully")) ∧
    ({ r with
        status := if d = "approve" then "approved" else "denied"
        verified_at := some n
        verified_by_admin_id := some a
        admin_notes := some nts } ∈
      ((manage_otp_verification st i true (some a) d nts n).1).verifications) ∧
    (((manage_otp_verification st i true (some a) d nts n).1).verifications.length =
      st.verifications.length) ∧
    ((manage_otp_authorization st2 j true (some a2) d2 nts2 n2).2 =
      .ok 200 r2.id (if d2 = "approve" then "approved" else "denied")
        ("Request " ++ (if d2 = "approve" then "approved" else "denied") ++
          " successfully")) ∧
    ({ r2 with
        status := if d2 = "approve" then "approved" else "denied"
        approved_at := some n2
        approved_by_admin_id := some a2
        notes := some nts2 } ∈
      ((manage_otp_authorization st2 j true (some a2) d2 nts2 n2).1).authorizations) ∧
    (((manage_otp_authorization st2 j true (some a2) d2 nts2 n2).1).authorizations.length =
      st2.authorizations.length) := by
  have hridv : r.id = i := by
    simpa using List.find?_some hfind
  have hrida : r2.id = j := by
    simpa using List.find?_some hfind2
  rw [manage_otp_verification_success st i (some a) d nts n r hfind hown hpend hd]
  rw [manage_otp_authorization_success st2 j (some a2) d2 nts2 n2 r2 hfind2 hown2 hpend2 hd2]
  refine ⟨rfl, ?_, by simp, rfl, ?_, by simp⟩
  · have hmem := List.mem_map_of_mem (fun q : OtpVerificationRequest =>
      if q.id = i then
        { q with
            status := if d = "approve" then "approved" else "denied"
            verified_at := some n
            verified_by_admin_id := some a
            admin_notes := some nts }
      else q) (List.mem_of_find?_eq_some hfind)
    dsimp only at hmem
    rw [if_pos hridv] at hmem
    exact hmem
  · have hmem := List.mem_map_of_mem (fun q : OtpAuthorizationRequest =>
      if q.id = j then
        { q with
            status := if d2 = "approve" then "approved" else "denied"
            approved_at := some n2
            approved_by_admin_id := some a2
            notes := some nts2 }
      else q) (List.mem_of_find?_eq_some hfind2)
    dsimp only at hmem
    rw [if_pos hrida] at hmem
    exact hmem

/-- Witness for claim C6: admin 1 approves the pending verification
request and denies the pending authorization request of `c5_store`. -/
theorem claim_C6_witness :
    (c5_store.verifications.find? (fun q => q.id == 1) = some c5_record ∧
     c5_record.admin_id = some 1 ∧ c5_record.status = "pending" ∧
     ("approve" = "approve" ∨ "approve" = "deny") ∧
     c5_store.authorizations.find? (fun q => q.id == 1) = some c5_auth_record ∧
     c5_auth_record.admin_id = some 1 ∧ c5_auth_record.status = "pending" ∧
     ("deny" = "approve" ∨ "deny" = "deny")) ∧
    (((manage_otp_verification c5_store 1 true (some 1) "approve" "ok" 5).2 =
      .ok 200 c5_record.id
        (if "approve" = "approve" then "approved" else "denied")
        ("OTP verification " ++
          (if "approve" = "approve" then "approved" else "denied") ++
          " successfully")) ∧
    ({ c5_record with
        status := if "approve" = "approve" then "approved" else "denied"
        verified_at := some 5
        verified_by_admin_id := some 1
        admin_notes := some "ok" } ∈
      ((manage_otp_verification c5_store 1 true (some 1) "approve" "ok" 5).1).verifications) ∧
    (((manage_otp_verification c5_store 1 true (some 1) "approve" "ok" 5).1).verifications.length =
      c5_store.verifications.length) ∧
    ((manage_otp_authorization c5_store 1 true (some 1) "deny" "no" 6).2 =
      .ok 200 c5_auth_record.id
        (if "deny" = "approve" then "approved" else "denied")
        ("Request " ++ (if "deny" = "approve" then "approved" else "denied") ++
          " successfully")) ∧
    ({ c5_auth_record with
        status := if "deny" = "approve" then "approved" else "denied"
        approved_at := some 6
        approved_by_admin_id := some 1
        notes := some "no" } ∈
      ((manage_otp_authorization c5_store 1 true (some 1) "deny" "no" 6).1).authorizations) ∧
    (((manage_otp_authorization c5_store 1 true (some 1) "deny" "no" 6).1).authorizations.length =
      c5_store.authorizations.length)) :=
  ⟨⟨rfl, rfl, rfl, Or.inl rfl, rfl, rfl, rfl, Or.inr rfl⟩,
   claim_C6_decide_success c5_store 1 1 "approve" "ok" 5 c5_record rfl rfl rfl
     (Or.inl rfl) c5_store 1 1 "deny" "no" 6 c5_auth_record rfl rfl rfl
     (Or.inr rfl)⟩

/-- Claim C3: submitting while a pending request (same kind) exists
returns the existing request id with the tables unchanged, and in every
reachable store each requester has at most one pending request per kind. -/
theorem claim_C3_idempotent_submit (st : Store) (u otp : String)
    (a s : Option Nat) (n : Nat) (e : OtpVerificationRequest)
    (hfind : st.verifications.find? (isPendingFor u) = some e)
    (hotp : otp.length = 6 ∧ otp.toList.all Char.isDigit = true)
    (st2 : Store) (u2 : String) (a2 s2 : Option Nat) (n2 : Nat)
    (e2 : OtpAuthorizationRequest)
    (hfind2 : st2.authorizations.find? (isPendingAuthFor u2) = some e2)
    (st3 : Store) (hreach : Reachable st3) :
    verify_otp st u otp a s n =
      (logActivity st "otp_submit_for_verification",
       .ok 200 e.id "pending"
         "OTP submitted for admin verification. Please wait...") ∧
    ((verify_otp st u otp a s n).1).verifications = st.verifications ∧
    request_otp_authorization st2 u2 a2 s2 n2 =
      (st2, .ok 200 e2.id e2.status "Authorization request already exists") ∧
    (∀ v, st3.verifications.countP (isPendingFor v) ≤ 1) ∧
    (∀ v, st3.authorizations.countP (isPendingAuthFor v) ≤ 1) := by
  have hinv := reachable_inv hreach
  have hv : verify_otp st u otp a s n =
      (logActivity st "otp_submit_for_verification",
       .ok 200 e.id "pending"
         "OTP submitted for admin verification. Please wait...") := by
    simp only [verify_otp, logActivity]
    rw [if_pos hotp]
    simp only [hfind]
  have ha : request_otp_authorization st2 u2 a2 s2 n2 =
      (st2, .ok 200 e2.id e2.status "Authorization request already exists") := by
    simp only [request_otp_authorization]
    simp only [hfind2]
  refine ⟨hv, ?_, ha, fun v => hinv.vOne v, fun v => hinv.aOne v⟩
  rw [hv]
  rfl

/-- Reachable store used in the witnesses for claims C3 and C7: a fresh
database after one OTP submission by user u. -/
def c3_store : Store :=
  step (initStore []) (Op.submitVerification "u" "123456" (some 1) none 0)

/-- Witness for claim C3: a second submission of each kind while the first
one is pending, against `c5_store`, and the pending-uniqueness invariant at
the reachable store `c3_store`. -/
theorem claim_C3_witness :
    (c5_store.verifications.find? (isPendingFor "u1") = some c5_record ∧
     ("123456".length = 6 ∧ "123456".toList.all Char.isDigit = true) ∧
     c5_store.authorizations.find? (isPendingAuthFor "u1") = some c5_auth_record) ∧
    (verify_otp c5_store "u1" "123456" none none 9 =
      (logActivity c5_store "otp_submit_for_verification",
       .ok 200 c5_record.id "pending"
         "OTP submitted for admin verification. Please wait...") ∧
    ((verify_otp c5_store "u1" "123456" none none 9).1).verifications =
      c5_store.verifications ∧
    request_otp_authorization c5_store "u1" none none 9 =
      (c5_store,
       .ok 200 c5_auth_record.id c5_auth_record.status
         "Authorization request already exists") ∧
    (∀ v, c3_store.verifications.countP (isPendingFor v) ≤ 1) ∧
    (∀ v, c3_store.authorizations.countP (isPendingAuthFor v) ≤ 1)) :=
  ⟨⟨rfl, by decide, rfl⟩,
   claim_C3_idempotent_submit c5_store "u1" "123456" none none 9 c5_record rfl
     (by decide) c5_store "u1" none none 9 c5_auth_record rfl
     c3_store (Reachable.step (initStore [])
       (Op.submitVerification "u" "123456" (some 1) none 0) (Reachable.init []))⟩

/-- Claim C7: in every reachable store the status of every request record
of either kind is pending, approved or denied; any record created by a
workflow operation starts pending; and across any single operation a
record that has left pending keeps its status unchanged, while any status
change goes from pending to approved or denied — so approved and denied
are terminal and no record ever returns to pending. -/
theorem claim_C7_state_machine (st : Store) (hreach : Reachable st) (op : Op) :
    (∀ r ∈ st.verifications,
      r.status = "pending" ∨ r.status = "approved" ∨ r.status = "denied") ∧
    (∀ r ∈ st.authorizations,
      r.status = "pending" ∨ r.status = "approved" ∨ r.status = "denied") ∧
    (∀ r1 ∈ (step st op).verifications,
      r1.id ∉ st.verifications.map OtpVerificationRequest.id →
        r1.status = "pending") ∧
    (∀ r1 ∈ (step st op).authorizations,
      r1.id ∉ st.authorizations.map OtpAuthorizationRequest.id →
        r1.status = "pending") ∧
    (∀ r ∈ st.verifications, ∀ r1 ∈ (step st op).verifications, r1.id = r.id →
      (r.status ≠ "pending" → r1.status = r.status) ∧
      (r1.status ≠ r.status → r.status = "pending" ∧
        (r1.status = "approved" ∨ r1.status = "denied"))) ∧
    (∀ r ∈ st.authorizations, ∀ r1 ∈ (step st op).authorizations, r1.id = r.id →
      (r.status ≠ "pending" → r1.status = r.status) ∧
      (r1.status ≠ r.status → r.status = "pending" ∧
        (r1.status = "approved" ∨ r1.status = "denied"))) := by
  have hinv := reachable_inv hreach
  obtain ⟨hv1, hv2⟩ := verifications_monotone hinv op
  obtain ⟨ha1, ha2⟩ := authorizations_monotone hinv op
  exact ⟨hinv.vStatus, hinv.aStatus, hv1, ha1, hv2, ha2⟩

/-- Witness for claim C7 at the reachable store `c3_store` and the
operation in which admin 1 approves the pending request. -/
theorem claim_C7_witness :
    (∀ r ∈ c3_store.verifications,
      r.status = "pending" ∨ r.status = "approved" ∨ r.status = "denied") ∧
    (∀ r ∈ c3_store.authorizations,
      r.status = "pending" ∨ r.status = "approved" ∨ r.status = "denied") ∧
    (∀ r1 ∈ (step c3_store (Op.decideVerification 1 1 "approve" "" 5)).verifications,
      r1.id ∉ c3_store.verifications.map OtpVerificationRequest.id →
        r1.status = "pending") ∧
    (∀ r1 ∈ (step c3_store (Op.decideVerification 1 1 "approve" "" 5)).authorizations,
      r1.id ∉ c3_store.authorizations.map OtpAuthorizationRequest.id →
        r1.status = "pending") ∧
    (∀ r ∈ c3_store.verifications,
      ∀ r1 ∈ (step c3_store (Op.decideVerification 1 1 "approve" "" 5)).verifications,
      r1.id = r.id →
      (r.status ≠ "pending" → r1.status = r.status) ∧
      (r1.status ≠ r.status → r.status = "pending" ∧
        (r1.status = "approved" ∨ r1.status = "denied"))) ∧
    (∀ r ∈ c3_store.authorizations,
      ∀ r1 ∈ (step c3_store (Op.decideVerification 1 1 "approve" "" 5)).authorizations,
      r1.id = r.id →
      (r.status ≠ "pending" → r1.status = r.status) ∧
      (r1.status ≠ r.status → r.status = "pending" ∧
        (r1.status = "approved" ∨ r1.status = "denied"))) :=
  claim_C7_state_machine c3_store
    (Reachable.step (initStore [])
      (Op.submitVerification "u" "123456" (some 1) none 0) (Reachable.init []))
    (Op.decideVerification 1 1 "approve" "" 5)

/-- Claim C10: in every reachable store, a record of either kind has its
decision timestamp and deciding-admin fields populated exactly when its
status has left pending, and the deciding admin is always the owning
admin of the record. -/
theorem claim_C10_decision_fields (st : Store) (hreach : Reachable st) :
    (∀ r ∈ st.verifications,
      ((r.verified_at.isSome ∧ r.verified_by_admin_id.isSome) ↔
        r.status ≠ "pending") ∧
      (r.verified_by_admin_id.isSome → r.verified_by_admin_id = r.admin_id)) ∧
    (∀ r ∈ st.authorizations,
      ((r.approved_at.isSome ∧ r.approved_by_admin_id.isSome) ↔
        r.status ≠ "pending") ∧
      (r.approved_by_admin_id.isSome → r.approved_by_admin_id = r.admin_id)) := by
  have hinv := reachable_inv hreach
  constructor
  · intro r hr
    constructor
    · constructor
      · rintro ⟨h1, -⟩ hpendeq
        obtain ⟨hva, -⟩ := hinv.vPending r hr hpendeq
        rw [hva] at h1
        simp at h1
      · intro hne
        obtain ⟨h1, h2, h3⟩ := hinv.vDecided r hr hne
        exact ⟨h1, by rw [h2]; exact h3⟩
    · intro hb
      by_cases hp : r.status = "pending"
      · obtain ⟨-, hvb⟩ := hinv.vPending r hr hp
        rw [hvb] at hb
        simp at hb
      · exact (hinv.vDecided r hr hp).2.1
  · intro r hr
    constructor
    · constructor
      · rintro ⟨h1, -⟩ hpendeq
        obtain ⟨hva, -⟩ := hinv.aPending r hr hpendeq
        rw [hva] at h1
        simp at h1
      · intro hne
        obtain ⟨h1, h2, h3⟩ := hinv.aDecided r hr hne
        exact ⟨h1, by rw [h2]; exact h3⟩
    · intro hb
      by_cases hp : r.status = "pending"
      · obtain ⟨-, hvb⟩ := hinv.aPending r hr hp
        rw [hvb] at hb
        simp at hb
      · exact (hinv.aDecided r hr hp).2.1

/-- Reachable store used in the witness for claim C10: user u submits an
OTP owned by admin 1, then admin 1 approves it. -/
def c10_store : Store :=
  step (step (initStore []) (Op.submitVerification "u" "123456" (some 1) none 0))
    (Op.decideVerification 1 1 "approve" "" 5)

/-- Witness for claim C10 at the reachable store `c10_store`, which holds
a decided record. -/
theorem claim_C10_witness :
    (∀ r ∈ c10_store.verifications,
      ((r.verified_at.isSome ∧ r.verified_by_admin_id.isSome) ↔
        r.status ≠ "pending") ∧
      (r.verified_by_admin_id.isSome → r.verified_by_admin_id = r.admin_id)) ∧
    (∀ r ∈ c10_store.authorizations,
      ((r.approved_at.isSome ∧ r.approved_by_admin_id.isSome) ↔
        r.status ≠ "pending") ∧
      (r.approved_by_admin_id.isSome → r.approved_by_admin_id = r.admin_id)) :=
  claim_C10_decision_fields c10_store
    (Reachable.step _ (Op.decideVerification 1 1 "approve" "" 5)
      (Reachable.step (initStore [])
        (Op.submitVerification "u" "123456" (some 1) none 0)
        (Reachable.init [])))

theorem manage_otp_verification_already (st : Store) (i : Nat) (c : Option Nat)
    (d nts : String) (n : Nat) (r : OtpVerificationRequest)
    (hfind : st.verifications.find? (fun q => q.id == i) = some r)
    (hown : r.admin_id = c) (hnp : r.status ≠ "pending")
    (hd : d = "approve" ∨ d = "deny") :
    manage_otp_verification st i true c d nts n =
      (st, .err 400 ("Request already " ++ r.status)) := by
  unfold manage_otp_verification
  rw [if_neg (by decide : ¬(true = false))]
  rw [if_neg (not_not_intro hd)]
  simp only [hfind]
  rw [if_neg (not_not_intro hown)]
  rw [if_pos hnp]

theorem manage_otp_authorization_already (st : Store) (i : Nat) (c : Option Nat)
    (d nts : String) (n : Nat) (r : OtpAuthorizationRequest)
    (hfind : st.authorizations.find? (fun q => q.id == i) = some r)
    (hown : r.admin_id = c) (hnp : r.status ≠ "pending")
    (hd : d = "approve" ∨ d = "deny") :
    manage_otp_authorization st i true c d nts n =
      (st, .err 400 ("Request already " ++ r.status)) := by
  unfold manage_otp_authorization
  rw [if_neg (by decide : ¬(true = false))]
  rw [if_neg (not_not_intro hd)]
  simp only [hfind]
  rw [if_neg (not_not_intro hown)]
  rw [if_pos hnp]

theorem decide_replay_v (st : Store) (i : Nat) (a : Nat)
    (d nts : String) (n : Nat) (r : OtpVerificationRequest)
    (hfind : st.verifications.find? (fun q => q.id == i) = some r)
    (hown : r.admin_id = some a) (hpend : r.status = "pending")
    (hd : d = "approve" ∨ d = "deny") :
    ((manage_otp_verification st i true (some a) d nts n).2 =
      .ok 200 r.id (if d = "approve" then "approved" else "denied")
        ("OTP verification " ++ (if d = "approve" then "approved" else "denied") ++
          " successfully")) ∧
    (∀ d2 nts2 n2, (d2 = "approve" ∨ d2 = "deny") →
      manage_otp_verification
          ((manage_otp_verification st i true (some a) d nts n).1)
          i true (some a) d2 nts2 n2 =
        ((manage_otp_verification st i true (some a) d nts n).1,
         .err 400 ("Request already " ++
           (if d = "approve" then "approved" else "denied")))) ∧
    (∀ b2 : Bool, ∀ c2 : Option Nat, ∀ d2 nts2 : String, ∀ n2 : Nat,
      ((manage_otp_verification
          ((manage_otp_verification st i true (some a) d nts n).1)
          i b2 c2 d2 nts2 n2).1).verifications =
        ((manage_otp_verification st i true (some a) d nts n).1).verifications) := by
  have hsucc := manage_otp_verification_success st i (some a) d nts n r
    hfind hown hpend hd
  have hridv : r.id = i := by simpa using List.find?_some hfind
  have hnsne : (if d = "approve" then "approved" else "denied") ≠ "pending" := by
    split <;> decide
  have hpred : ∀ q : OtpVerificationRequest,
      (((fun q : OtpVerificationRequest =>
        if q.id = i then
          { q with
              status := if d = "approve" then "approved" else "denied"
              verified_at := some n
              verified_by_admin_id := some a
              admin_notes := some nts }
        else q) q).id == i) = (q.id == i) := by
    intro q
    by_cases hq : q.id = i
    · dsimp only
      rw [if_pos hq]
    · dsimp only
      rw [if_neg hq]
  have hv1 : ((manage_otp_verification st i true (some a) d nts n).1).verifications =
      st.verifications.map (fun q : OtpVerificationRequest =>
        if q.id = i then
          { q with
              status := if d = "approve" then "approved" else "denied"
              verified_at := some n
              verified_by_admin_id := some a
              admin_notes := some nts }
        else q) := by
    rw [hsucc]
  have hfind1 : ((manage_otp_verification st i true (some a) d nts n).1).verifications.find?
      (fun q => q.id == i) =
      some ({ r with
          status := if d = "approve" then "approved" else "denied"
          verified_at := some n
          verified_by_admin_id := some a
          admin_notes := some nts }) := by
    rw [hv1, find?_id_map _ _ _ hpred, hfind]
    dsimp only [Option.map]
    rw [if_pos hridv]
  refine ⟨by rw [hsucc], ?_, ?_⟩
  · intro d2 nts2 n2 hd2
    exact manage_otp_verification_already _ i (some a) d2 nts2 n2 _ hfind1 hown
      hnsne hd2
  · intro b2 c2 d2 nts2 n2
    rcases manage_otp_verification_cases
        ((manage_otp_verification st i true (some a) d nts n).1) i b2 c2 d2 nts2 n2 with
      heq | ⟨r2, hmem2, hfind2, hid2, hpend2, -, -, -, -, -, -⟩
    · exact congrArg Store.verifications heq
    · exfalso
      rw [hfind1] at hfind2
      have : ({ r with
          status := if d = "approve" then "approved" else "denied"
          verified_at := some n
          verified_by_admin_id := some a
          admin_notes := some nts } : OtpVerificationRequest) = r2 :=
        Option.some.inj hfind2
      rw [← this] at hpend2
      exact hnsne hpend2

theorem decide_replay_a (st : Store) (i : Nat) (a : Nat)
    (d nts : String) (n : Nat) (r : OtpAuthorizationRequest)
    (hfind : st.authorizations.find? (fun q => q.id == i) = some r)
    (hown : r.admin_id = some a) (hpend : r.status = "pending")
    (hd : d = "approve" ∨ d = "deny") :
    ((manage_otp_authorization st i true (some a) d nts n).2 =
      .ok 200 r.id (if d = "approve" then "approved" else "denied")
        ("Request " ++ (if d = "approve" then "approved" else "denied") ++
          " successfully")) ∧
    (∀ d2 nts2 n2, (d2 = "approve" ∨ d2 = "deny") →
      manage_otp_authorization
          ((manage_otp_authorization st i true (some a) d nts n).1)
          i true (some a) d2 nts2 n2 =
        ((manage_otp_authorization st i true (some a) d nts n).1,
         .err 400 ("Request already " ++
           (if d = "approve" then "approved" else "denied")))) ∧
    (∀ b2 : Bool, ∀ c2 : Option Nat, ∀ d2 nts2 : String, ∀ n2 : Nat,
      ((manage_otp_authorization
          ((manage_otp_authorization st i true (some a) d nts n).1)
          i b2 c2 d2 nts2 n2).1).authorizations =
        ((manage_otp_authorization st i true (some a) d nts n).1).authorizations) := by
  have hsucc := manage_otp_authorization_success st i (some a) d nts n r
    hfind hown hpend hd
  have hrida : r.id = i := by simpa using List.find?_some hfind
  have hnsne : (if d = "approve" then "approved" else "denied") ≠ "pending" := by
    split <;> decide
  have hpred : ∀ q : OtpAuthorizationRequest,
      (((fun q : OtpAuthorizationRequest =>
        if q.id = i then
          { q with
              status := if d = "approve" then "approved" else "denied"
              approved_at := some n
              approved_by_admin_id := some a
              notes := some nts }
        else q) q).id == i) = (q.id == i) := by
    intro q
    by_cases hq : q.id = i
    · dsimp only
      rw [if_pos hq]
    · dsimp only
      rw [if_neg hq]
  have hv1 : ((manage_otp_authorization st i true (some a) d nts n).1).authorizations =
      st.authorizations.map (fun q : OtpAuthorizationRequest =>
        if q.id = i then
          { q with
              status := if d = "approve" then "approved" else "denied"
              approved_at := some n
              approved_by_admin_id := some a
              notes := some nts }
        else q) := by
    rw [hsucc]
  have hfind1 : ((manage_otp_authorization st i true (some a) d nts n).1).authorizations.find?
      (fun q => q.id == i) =
      some ({ r with
          status := if d = "approve" then "approved" else "denied"
          approved_at := some n
          approved_by_admin_id := some a
          notes := some nts }) := by
    rw [hv1, find?_id_map _ _ _ hpred, hfind]
    dsimp only [Option.map]
    rw [if_pos hrida]
  refine ⟨by rw [hsucc], ?_, ?_⟩
  · intro d2 nts2 n2 hd2
    exact manage_otp_authorization_already _ i (some a) d2 nts2 n2 _ hfind1 hown
      hnsne hd2
  · intro b2 c2 d2 nts2 n2
    rcases manage_otp_authorization_cases
        ((manage_otp_authorization st i true (some a) d nts n).1) i b2 c2 d2 nts2 n2 with
      heq | ⟨r2, hmem2, hfind2, hid2, hpend2, -, -, -, -, -, -⟩
    · exact congrArg Store.authorizations heq
    · exfalso
      rw [hfind1] at hfind2
      have : ({ r with
          status := if d = "approve" then "approved" else "denied"
          approved_at := some n
          approved_by_admin_id := some a
          notes := some nts } : OtpAuthorizationRequest) = r2 :=
        Option.some.inj hfind2
      rw [← this] at hpend2
      exact hnsne hpend2

/-- Pending verification record owned by admin 1, used for claim C2. -/
def c2_record : OtpVerificationRequest :=
  { id := 1, user_identifier := "u1", otp_code := "654321", submission_id := none,
    admin_id := some 1, status := "pending", submitted_at := 0,
    verified_at := none, verified_by_admin_id := none, admin_notes := none }

/-- Pending authorization record owned by admin 1, used for claim C2. -/
def c2_auth_record : OtpAuthorizationRequest :=
  { id := 1, user_identifier := "u1", submission_id := none, admin_id := some 1,
    status := "pending", requested_at := 0, approved_at := none,
    approved_by_admin_id := none, notes := none }

/-- Store used for claim C2: one pending request of each kind, both owned
by admin 1. -/
def c2_store : Store :=
  { verifications := [c2_record], authorizations := [c2_auth_record],
    admins := [Admin.mk 1 false, Admin.mk 2 false],
    nextVerificationId := 2, nextAuthorizationId := 2, activities := [] }

/-- Counterexample to claim C2 as stated: after admin 1 successfully
decides request 1 of either kind, a second decide call on the same id
issued by admin 2 returns the 403 Forbidden ownership error in both
decision handlers, not the AlreadyDecided error (the 400 "Request already
approved" response) — the ownership check runs before the pending check,
so not every second decide call returns AlreadyDecided. -/
theorem claim_C2_counterexample :
    (manage_otp_verification c2_store 1 true (some 1) "approve" "" 3).2 =
      .ok 200 1 "approved" "OTP verification approved successfully" ∧
    (manage_otp_verification
        ((manage_otp_verification c2_store 1 true (some 1) "approve" "" 3).1)
        1 true (some 2) "deny" "x" 4).2 =
      .err 403 "Unauthorized: This request does not belong to your workspace" ∧
    (manage_otp_authorization c2_store 1 true (some 1) "approve" "" 3).2 =
      .ok 200 1 "approved" "Request approved successfully" ∧
    (manage_otp_authorization
        ((manage_otp_authorization c2_store 1 true (some 1) "approve" "" 3).1)
        1 true (some 2) "deny" "x" 4).2 =
      .err 403 "Unauthorized: This request does not belong to your workspace" ∧
    DecideResult.err 403
        "Unauthorized: This request does not belong to your workspace" ≠
      DecideResult.err 400 ("Request already " ++ "approved") :=
  ⟨by decide, by decide, by decide, by decide, by decide⟩

/-- Claim C2 as amended: decide succeeds at most once, for both request
kinds.  After a first successful decide, a replay — a second decide call
on the same id by the owning reviewer with a valid decision — returns the
AlreadyDecided error naming the recorded status, and every second decide
call on the same id, whatever its authentication, reviewer or decision
value, leaves the request table of that kind (hence the record status,
decision timestamp approved_at/verified_at, deciding admin and notes set
by the first decision) completely unchanged; second calls that fail
authentication, decision validation or ownership return their respective
errors instead of AlreadyDecided. -/
theorem claim_C2_decide_at_most_once (st : Store) (i : Nat) (a : Nat)
    (d nts : String) (n : Nat) (r : OtpVerificationRequest)
    (hfind : st.verifications.find? (fun q => q.id == i) = some r)
    (hown : r.admin_id = some a) (hpend : r.status = "pending")
    (hd : d = "approve" ∨ d = "deny")
    (st2 : Store) (j : Nat) (a2 : Nat) (d2 nts2 : String) (n2 : Nat)
    (r2 : OtpAuthorizationRequest)
    (hfind2 : st2.authorizations.find? (fun q => q.id == j) = some r2)
    (hown2 : r2.admin_id = some a2) (hpend2 : r2.status = "pending")
    (hd2 : d2 = "approve" ∨ d2 = "deny") :
    (((manage_otp_verification st i true (some a) d nts n).2 =
      .ok 200 r.id (if d = "approve" then "approved" else "denied")
        ("OTP verification " ++ (if d = "approve" then "approved" else "denied") ++
          " successfully")) ∧
    (∀ d3 nts3 n3, (d3 = "approve" ∨ d3 = "deny") →
      manage_otp_verification
          ((manage_otp_verification st i true (some a) d nts n).1)
          i true (some a) d3 nts3 n3 =
        ((manage_otp_verification st i true (some a) d nts n).1,
         .err 400 ("Request already " ++
           (if d = "approve" then "approved" else "denied")))) ∧
    (∀ b3 : Bool, ∀ c3 : Option Nat, ∀ d3 nts3 : String, ∀ n3 : Nat,
      ((manage_otp_verification
          ((manage_otp_verification st i true (some a) d nts n).1)
          i b3 c3 d3 nts3 n3).1).verifications =
        ((manage_otp_verification st i true (some a) d nts n).1).verifications)) ∧
    (((manage_otp_authorization st2 j true (some a2) d2 nts2 n2).2 =
      .ok 200 r2.id (if d2 = "approve" then "approved" else "denied")
        ("Request " ++ (if d2 = "approve" then "approved" else "denied") ++
          " successfully")) ∧
    (∀ d3 nts3 n3, (d3 = "approve" ∨ d3 = "deny") →
      manage_otp_authorization
          ((manage_otp_authorization st2 j true (some a2) d2 nts2 n2).1)
          j true (some a2) d3 nts3 n3 =
        ((manage_otp_authorization st2 j true (some a2) d2 nts2 n2).1,
         .err 400 ("Request already " ++
           (if d2 = "approve" then "approved" else "denied")))) ∧
    (∀ b3 : Bool, ∀ c3 : Option Nat, ∀ d3 nts3 : String, ∀ n3 : Nat,
      ((manage_otp_authorization
          ((manage_otp_authorization st2 j true (some a2) d2 nts2 n2).1)
          j b3 c3 d3 nts3 n3).1).authorizations =
        ((manage_otp_authorization st2 j true (some a2) d2 nts2 n2).1).authorizations)) :=
  ⟨decide_replay_v st i a d nts n r hfind hown hpend hd,
   decide_replay_a st2 j a2 d2 nts2 n2 r2 hfind2 hown2 hpend2 hd2⟩

/-- Witness for the amended claim C2: admin 1 approves verification
request 1 and denies authorization request 1 of `c2_store`; the replay and
frame properties hold at those inputs for both handlers. -/
theorem claim_C2_witness :
    (c2_store.verifications.find? (fun q => q.id == 1) = some c2_record ∧
     c2_record.admin_id = some 1 ∧ c2_record.status = "pending" ∧
     ("approve" = "approve" ∨ "approve" = "deny") ∧
     c2_store.authorizations.find? (fun q => q.id == 1) = some c2_auth_record ∧
     c2_auth_record.admin_id = some 1 ∧ c2_auth_record.status = "pending" ∧
     ("deny" = "approve" ∨ "deny" = "deny")) ∧
    ((((manage_otp_verification c2_store 1 true (some 1) "approve" "" 3).2 =
      .ok 200 c2_record.id
        (if "approve" = "approve" then "approved" else "denied")
        ("OTP verification " ++
          (if "approve" = "approve" then "approved" else "denied") ++
          " successfully")) ∧
    (∀ d3 nts3 n3, (d3 = "approve" ∨ d3 = "deny") →
      manage_otp_verification
          ((manage_otp_verification c2_store 1 true (some 1) "approve" "" 3).1)
          1 true (some 1) d3 nts3 n3 =
        ((manage_otp_verification c2_store 1 true (some 1) "approve" "" 3).1,
         .err 400 ("Request already " ++
           (if "approve" = "approve" then "approved" else "denied")))) ∧
    (∀ b3 : Bool, ∀ c3 : Option Nat, ∀ d3 nts3 : String, ∀ n3 : Nat,
      ((manage_otp_verification
          ((manage_otp_verification c2_store 1 true (some 1) "approve" "" 3).1)
          1 b3 c3 d3 nts3 n3).1).verifications =
        ((manage_otp_verification c2_store 1 true (some 1) "approve" "" 3).1).verifications)) ∧
    (((manage_otp_authorization c2_store 1 true (some 1) "deny" "no" 4).2 =
      .ok 200 c2_auth_record.id
        (if "deny" = "approve" then "approved" else "denied")
        ("Request " ++ (if "deny" = "approve" then "approved" else "denied") ++
          " successfully")) ∧
    (∀ d3 nts3 n3, (d3 = "approve" ∨ d3 = "deny") →
      manage_otp_authorization
          ((manage_otp_authorization c2_store 1 true (some 1) "deny" "no" 4).1)
          1 true (some 1) d3 nts3 n3 =
        ((manage_otp_authorization c2_store 1 true (some 1) "deny" "no" 4).1,
         .err 400 ("Request already " ++
           (if "deny" = "approve" then "approved" else "denied")))) ∧
    (∀ b3 : Bool, ∀ c3 : Option Nat, ∀ d3 nts3 : String, ∀ n3 : Nat,
      ((manage_otp_authorization
          ((manage_otp_authorization c2_store 1 true (some 1) "deny" "no" 4).1)
          1 b3 c3 d3 nts3 n3).1).authorizations =
        ((manage_otp_authorization c2_store 1 true (some 1) "deny" "no" 4).1).authorizations))) :=
  ⟨⟨rfl, rfl, rfl, Or.inl rfl, rfl, rfl, rfl, Or.inr rfl⟩,
   claim_C2_decide_at_most_once c2_store 1 1 "approve" "" 3 c2_record rfl rfl rfl
     (Or.inl rfl) c2_store 1 1 "deny" "no" 4 c2_auth_record rfl rfl rfl
     (Or.inr rfl)⟩

end StagedApproval
